import Mathlib

/-!
Verification development for the sealdb SQL front-end
(lexer, recursive-descent parsers, planner, statistics manager).

Conventions of the shallow embedding:
* C++ strings are Lean `String`s; the scanned input is kept as `List Char`
  with an explicit cursor `position`, mirroring `std::string` + `size_t`.
* `std::unique_ptr<T>` / `std::shared_ptr<T>` valued expressions are
  `Option T` (a null pointer is `none`).
* `double` is modelled as `ℚ` (the arithmetic performed by the code on the
  values relevant here is exact); `size_t` is `ℕ`, with
  `static_cast<size_t>` on non-negative doubles modelled as the floor.
* `std::unordered_map` is an association list consulted with `List.lookup`.
* `while` loops whose termination is in question are modelled with an
  explicit fuel parameter; `none` means «the loop has not finished within
  the given budget».  Loops with an evident decreasing measure are modelled
  by well-founded recursion on that measure.
-/

namespace SealDB

/-- Token kinds, from `src/sql/parser/seal/lexer.h` (`enum class TokenType`);
the hand-written main lexer `src/sql/lexer.cpp` uses the same enumerators. -/
inductive TokenType where
  | SELECT | INSERT | UPDATE | DELETE | CREATE | DROP | ALTER | TABLE | INDEX | VIEW
  | FROM | WHERE | GROUP | BY | ORDER | HAVING | LIMIT | OFFSET
  | JOIN | LEFT | RIGHT | INNER | OUTER | ON | AS
  | AND | OR | NOT | IN | INTO | VALUES | EXISTS | BETWEEN | LIKE | IS | NULL_VALUE
  | DISTINCT | COUNT | SUM | AVG | MAX | MIN
  | PRIMARY | KEY | FOREIGN | REFERENCES | UNIQUE | CHECK | DEFAULT
  | CONSTRAINT | CASCADE | RESTRICT | SET | NULL_ACTION
  | INT | INTEGER | BIGINT | SMALLINT | TINYINT
  | FLOAT | DOUBLE | DECIMAL | NUMERIC
  | CHAR | VARCHAR | TEXT | BLOB
  | DATE | TIME | DATETIME | TIMESTAMP
  | BOOLEAN | BOOL
  | PLUS | MINUS | MULTIPLY | DIVIDE | MOD
  | EQUAL | NOT_EQUAL | LESS | LESS_EQUAL | GREATER | GREATER_EQUAL
  | ASSIGN | DOT | COMMA | SEMICOLON | LPAREN | RPAREN | LBRACKET | RBRACKET | LBRACE | RBRACE
  | IDENTIFIER | STRING_LITERAL | NUMBER_LITERAL | NULL_LITERAL
  | WHITESPACE | COMMENT | END_OF_FILE | ERROR
  deriving DecidableEq, Repr

/-- `struct Token` of `src/sql/parser/seal/lexer.h`. -/
structure Token where
  type : TokenType
  value : String
  line : Nat
  column : Nat
  deriving DecidableEq, Repr

/-- `std::isspace` in the C locale. -/
def isSpaceChar (c : Char) : Bool :=
  c = ' ' ∨ c = '\t' ∨ c = '\n' ∨ c = '\x0b' ∨ c = '\x0c' ∨ c = '\r'

/-- `std::isalpha(c) || c == '_'` (C locale, ASCII input), the `is_alpha`
helper shared by both lexers. -/
def isAlphaChar (c : Char) : Bool := c.isAlpha ∨ c = '_'

/-- `std::transform(begin, end, begin, ::toupper)` on an ASCII string. -/
def upperAscii (s : String) : String := ⟨s.data.map Char.toUpper⟩

/-- `std::isdigit`. -/
def isDigitChar (c : Char) : Bool := c.isDigit

/-- `is_alphanumeric`: `is_alpha(c) || is_digit(c)`. -/
def isAlnumChar (c : Char) : Bool := isAlphaChar c ∨ isDigitChar c

/-- Mutable scanning state of a `Lexer` (`input_`, `position_`, `line_`,
`column_`), shared shape of both lexer translation units. -/
structure LexState where
  input : List Char
  position : Nat
  line : Nat
  column : Nat
  deriving DecidableEq, Repr

namespace LexState

/-- `Lexer::Lexer(input)`: position 0, line 1, column 1. -/
def init (s : String) : LexState := ⟨s.data, 0, 1, 1⟩

/-- `Lexer::is_eof`. -/
def isEof (s : LexState) : Bool := s.input.length ≤ s.position

/-- `Lexer::current_char` (returns `'\0'` past the end). -/
def currentChar (s : LexState) : Char := s.input.getD s.position '\x00'

/-- `Lexer::peek_char`. -/
def peekChar (s : LexState) : Char := s.input.getD (s.position + 1) '\x00'

/-- `Lexer::advance`: bump line on `'\n'`, else bump column; always bump
position. -/
def advance (s : LexState) : LexState :=
  if s.currentChar = '\n' then
    { s with line := s.line + 1, column := 1, position := s.position + 1 }
  else
    { s with column := s.column + 1, position := s.position + 1 }

theorem advance_position (s : LexState) : s.advance.position = s.position + 1 := by
  unfold advance; split <;> rfl

theorem advance_input (s : LexState) : s.advance.input = s.input := by
  unfold advance; split <;> rfl

/-- Remaining input length, the termination measure of the scanning loops. -/
def remaining (s : LexState) : Nat := s.input.length - s.position

theorem remaining_advance_le (s : LexState) : s.advance.remaining ≤ s.remaining := by
  unfold remaining
  rw [advance_position, advance_input]
  omega

theorem remaining_advance_lt {s : LexState} (h : s.isEof = false) :
    s.advance.remaining < s.remaining := by
  have hp : s.position < s.input.length := by
    by_contra hc
    simp [isEof, decide_eq_false_iff_not] at h
    omega
  unfold remaining
  rw [advance_position, advance_input]
  omega

end LexState

/-!
The character-consuming `while` loops of the lexers always terminate: every
iteration requires `!is_eof()` and advances the position, so a loop started
in state `s` runs at most `s.remaining` iterations.  To keep the embedding
kernel-computable each loop is written as a counted loop (structural
recursion on that exact bound); when the count reaches zero the state is
necessarily at end of input, which is also the loop's own exit condition, so
the counted loop equals the C++ loop.
-/

/-- Counted body of `Lexer::skip_whitespace` (identical in both lexers). -/
def skipWhitespaceN : Nat → LexState → LexState
  | 0, s => s
  | n + 1, s =>
    if s.isEof = false ∧ isSpaceChar s.currentChar then
      skipWhitespaceN n s.advance
    else s

/-- `Lexer::skip_whitespace`. -/
def skipWhitespace (s : LexState) : LexState := skipWhitespaceN s.remaining s

/-- Counted scanning loop of `read_keyword_or_identifier` / `read_identifier`:
consume characters while `is_alphanumeric`, returning them in order together
with the state after the loop. -/
def takeAlnumN : Nat → LexState → List Char × LexState
  | 0, s => ([], s)
  | n + 1, s =>
    if s.isEof = false ∧ isAlnumChar s.currentChar then
      let r := takeAlnumN n s.advance
      (s.currentChar :: r.1, r.2)
    else ([], s)

/-- The word-scanning loop started at `s`. -/
def takeAlnum (s : LexState) : List Char × LexState := takeAlnumN s.remaining s

/-- Counted digit-consuming loop of `read_number`. -/
def takeDigitsN : Nat → LexState → List Char × LexState
  | 0, s => ([], s)
  | n + 1, s =>
    if s.isEof = false ∧ isDigitChar s.currentChar then
      let r := takeDigitsN n s.advance
      (s.currentChar :: r.1, r.2)
    else ([], s)

/-- The digit-scanning loop started at `s`. -/
def takeDigits (s : LexState) : List Char × LexState := takeDigitsN s.remaining s

namespace MainLexer
/-!
Embedding of the hand-written main lexer, `src/sql/lexer.cpp`.
-/

/-- The keyword table built by `Lexer::init_keywords` in `src/sql/lexer.cpp`
(note: unlike the seal lexer it has no `VIEW`, `INTO` or `VALUES` entry). -/
def keywords : List (String × TokenType) :=
  [("SELECT", .SELECT), ("INSERT", .INSERT), ("UPDATE", .UPDATE),
   ("DELETE", .DELETE), ("CREATE", .CREATE), ("DROP", .DROP),
   ("ALTER", .ALTER), ("TABLE", .TABLE), ("INDEX", .INDEX),
   ("FROM", .FROM), ("WHERE", .WHERE), ("GROUP", .GROUP), ("BY", .BY),
   ("ORDER", .ORDER), ("HAVING", .HAVING), ("LIMIT", .LIMIT),
   ("OFFSET", .OFFSET),
   ("JOIN", .JOIN), ("LEFT", .LEFT), ("RIGHT", .RIGHT), ("INNER", .INNER),
   ("OUTER", .OUTER), ("ON", .ON), ("AS", .AS),
   ("AND", .AND), ("OR", .OR), ("NOT", .NOT), ("IN", .IN),
   ("EXISTS", .EXISTS), ("BETWEEN", .BETWEEN), ("LIKE", .LIKE), ("IS", .IS),
   ("NULL", .NULL_VALUE),
   ("DISTINCT", .DISTINCT), ("COUNT", .COUNT), ("SUM", .SUM), ("AVG", .AVG),
   ("MAX", .MAX), ("MIN", .MIN),
   ("PRIMARY", .PRIMARY), ("KEY", .KEY), ("FOREIGN", .FOREIGN),
   ("REFERENCES", .REFERENCES), ("UNIQUE", .UNIQUE), ("CHECK", .CHECK),
   ("DEFAULT", .DEFAULT), ("CONSTRAINT", .CONSTRAINT),
   ("CASCADE", .CASCADE), ("RESTRICT", .RESTRICT), ("SET", .SET),
   ("INT", .INT), ("INTEGER", .INTEGER), ("BIGINT", .BIGINT),
   ("SMALLINT", .SMALLINT), ("TINYINT", .TINYINT),
   ("FLOAT", .FLOAT), ("DOUBLE", .DOUBLE), ("DECIMAL", .DECIMAL),
   ("NUMERIC", .NUMERIC),
   ("CHAR", .CHAR), ("VARCHAR", .VARCHAR), ("TEXT", .TEXT), ("BLOB", .BLOB),
   ("DATE", .DATE), ("TIME", .TIME), ("DATETIME", .DATETIME),
   ("TIMESTAMP", .TIMESTAMP),
   ("BOOLEAN", TokenType.BOOLEAN), ("BOOL", .BOOL)]

/-- `Lexer::is_operator_start` of `src/sql/lexer.cpp` (no brackets/braces). -/
def isOperatorStart (c : Char) : Bool :=
  c = '+' ∨ c = '-' ∨ c = '*' ∨ c = '/' ∨ c = '%' ∨
  c = '=' ∨ c = '<' ∨ c = '>' ∨ c = '!' ∨
  c = '.' ∨ c = ',' ∨ c = ';' ∨ c = '(' ∨ c = ')'

/-- `Lexer::create_error_token`: an `ERROR` token at the current line/column. -/
def createErrorToken (s : LexState) (msg : String) : Token :=
  ⟨.ERROR, msg, s.line, s.column⟩

/-- `Lexer::read_keyword_or_identifier`: collect a word, match it (upper-cased)
against the keyword table, fall back to `IDENTIFIER`. -/
def readKeywordOrIdentifier (s : LexState) : Token × LexState :=
  let startLine := s.line
  let startColumn := s.column
  let r := takeAlnum s
  let word : String := ⟨r.1⟩
  let upper := upperAscii word
  match keywords.lookup upper with
  | some ty => (⟨ty, word, startLine, startColumn⟩, r.2)
  | none => (⟨.IDENTIFIER, word, startLine, startColumn⟩, r.2)

/-- `Lexer::read_number` of `src/sql/lexer.cpp`: integer part, optional
fractional part, optional exponent with optional sign. -/
def readNumber (s : LexState) : Token × LexState :=
  let startLine := s.line
  let startColumn := s.column
  let ri := takeDigits s
  let s1 := ri.2
  let withFrac :=
    if s1.isEof = false ∧ s1.currentChar = '.' then
      let rf := takeDigits s1.advance
      (ri.1 ++ '.' :: rf.1, rf.2)
    else (ri.1, s1)
  let s2 := withFrac.2
  let withExp :=
    if s2.isEof = false ∧ (s2.currentChar = 'e' ∨ s2.currentChar = 'E') then
      let s3 := s2.advance
      let signPart :=
        if s3.isEof = false ∧ (s3.currentChar = '+' ∨ s3.currentChar = '-') then
          ([s3.currentChar], s3.advance)
        else ([], s3)
      let rd := takeDigits signPart.2
      (withFrac.1 ++ s2.currentChar :: (signPart.1 ++ rd.1), rd.2)
    else withFrac
  (⟨.NUMBER_LITERAL, ⟨withExp.1⟩, startLine, startColumn⟩, withExp.2)

/-- Counted body loop of `Lexer::read_string` in `src/sql/lexer.cpp`: while
the current character is not the closing quote, a backslash is dropped and
the following character kept verbatim.  Returns the collected value and the
state at the closing quote (or at end of input). -/
def readStringBodyN (quote : Char) : Nat → LexState → List Char × LexState
  | 0, s => ([], s)
  | n + 1, s =>
    if s.isEof = false ∧ ¬ s.currentChar = quote then
      if s.currentChar = '\\' then
        let s1 := s.advance
        if s1.isEof = false then
          let r := readStringBodyN quote n s1.advance
          (s1.currentChar :: r.1, r.2)
        else ([], s1)
      else
        let r := readStringBodyN quote n s.advance
        (s.currentChar :: r.1, r.2)
    else ([], s)

/-- The string-body loop started at `s`. -/
def readStringBody (quote : Char) (s : LexState) : List Char × LexState :=
  readStringBodyN quote s.remaining s

/-- `Lexer::read_string` of `src/sql/lexer.cpp`. -/
def readString (s : LexState) : Token × LexState :=
  let quote := s.currentChar
  let startLine := s.line
  let startColumn := s.column
  let r := readStringBody quote s.advance
  if r.2.isEof then
    (createErrorToken r.2 "Unterminated string literal", r.2)
  else
    (⟨.STRING_LITERAL, ⟨r.1⟩, startLine, startColumn⟩, r.2.advance)

/-- `Lexer::read_operator` of `src/sql/lexer.cpp`: greedy two-character
operators (`==`, `!=`, `<=`, `>=`), then single-character ones; `=` maps to
`EQUAL`. -/
def readOperator (s : LexState) : Token × LexState :=
  let startLine := s.line
  let startColumn := s.column
  let c := s.currentChar
  let n := s.peekChar
  if c = '=' ∧ n = '=' then (⟨.EQUAL, "==", startLine, startColumn⟩, s.advance.advance)
  else if c = '!' ∧ n = '=' then (⟨.NOT_EQUAL, "!=", startLine, startColumn⟩, s.advance.advance)
  else if c = '<' ∧ n = '=' then (⟨.LESS_EQUAL, "<=", startLine, startColumn⟩, s.advance.advance)
  else if c = '>' ∧ n = '=' then (⟨.GREATER_EQUAL, ">=", startLine, startColumn⟩, s.advance.advance)
  else if c = '+' then (⟨.PLUS, "+", startLine, startColumn⟩, s.advance)
  else if c = '-' then (⟨.MINUS, "-", startLine, startColumn⟩, s.advance)
  else if c = '*' then (⟨.MULTIPLY, "*", startLine, startColumn⟩, s.advance)
  else if c = '/' then (⟨.DIVIDE, "/", startLine, startColumn⟩, s.advance)
  else if c = '%' then (⟨.MOD, "%", startLine, startColumn⟩, s.advance)
  else if c = '=' then (⟨.EQUAL, "=", startLine, startColumn⟩, s.advance)
  else if c = '<' then (⟨.LESS, "<", startLine, startColumn⟩, s.advance)
  else if c = '>' then (⟨.GREATER, ">", startLine, startColumn⟩, s.advance)
  else if c = '.' then (⟨.DOT, ".", startLine, startColumn⟩, s.advance)
  else if c = ',' then (⟨.COMMA, ",", startLine, startColumn⟩, s.advance)
  else if c = ';' then (⟨.SEMICOLON, ";", startLine, startColumn⟩, s.advance)
  else if c = '(' then (⟨.LPAREN, "(", startLine, startColumn⟩, s.advance)
  else if c = ')' then (⟨.RPAREN, ")", startLine, startColumn⟩, s.advance)
  else
    let s1 := s.advance
    (createErrorToken s1 ("Unknown operator: " ++ String.singleton c), s1)

/-- `Lexer::next_token` of `src/sql/lexer.cpp`.  Note the fall-through case
(unexpected character) advances before building the error token. -/
def nextToken (s0 : LexState) : Token × LexState :=
  let s := skipWhitespace s0
  if s.isEof then (⟨.END_OF_FILE, "", s.line, s.column⟩, s)
  else
    let c := s.currentChar
    if isAlphaChar c ∨ c = '_' then readKeywordOrIdentifier s
    else if isDigitChar c then readNumber s
    else if c = '\'' ∨ c = '"' then readString s
    else if isOperatorStart c then readOperator s
    else
      let s1 := s.advance
      (createErrorToken s1 ("Unexpected character: " ++ String.singleton c), s1)

/-- The `while (!is_eof())` loop of `Lexer::tokenize` in `src/sql/lexer.cpp`,
with explicit fuel: `none` means the loop did not finish within the budget.
`WHITESPACE`/`COMMENT` tokens are filtered out; an `END_OF_FILE` token breaks
the loop (after being appended). -/
def tokenizeLoop : Nat → LexState → List Token → Option (List Token)
  | 0, _, _ => none
  | fuel + 1, s, acc =>
    if s.isEof then some acc
    else
      let r := nextToken s
      let acc' :=
        if r.1.type = .WHITESPACE ∨ r.1.type = .COMMENT then acc else acc ++ [r.1]
      if r.1.type = .END_OF_FILE then some acc'
      else tokenizeLoop fuel r.2 acc'

/-- `Lexer::tokenize` of `src/sql/lexer.cpp` (the constructor plus `reset`
place the cursor at the start). -/
def tokenize (fuel : Nat) (input : String) : Option (List Token) :=
  tokenizeLoop fuel (LexState.init input) []

end MainLexer

namespace MainAst
/-!
AST of the hand-written main parser stack (`sealdb/ast.h`, implementation
`src/sql/ast.cpp`).  The node classes and their constructor signatures are
those used by `src/sql/parser.cpp` and `src/sql/planner/planner.cpp`;
`clone()` produces a structurally equal deep copy, which on these values is
the identity.
-/

/-- `LiteralExpression::Type`. -/
inductive LitType where
  | STRING | INTEGER | FLOAT | BOOLEAN | NULL_VALUE
  deriving DecidableEq, Repr

/-- `BinaryExpression::Operator`. -/
inductive BinOp where
  | ADD | SUBTRACT | MULTIPLY | DIVIDE | MOD
  | EQUAL | NOT_EQUAL | LESS | LESS_EQUAL | GREATER | GREATER_EQUAL
  | AND | OR
  deriving DecidableEq, Repr

/-- The `Expression` class hierarchy: `LiteralExpression`,
`IdentifierExpression`, `BinaryExpression`, `FunctionCallExpression`,
`ColumnReference`.  Children are `Option Expr` because the parser stores
possibly-null `unique_ptr`s in them. -/
inductive Expr where
  | lit (type : LitType) (value : String)
  | ident (name : String)
  | bin (op : BinOp) (left right : Option Expr)
  | call (name : String) (args : List (Option Expr))
  | colref (tableName columnName : String)

/-- `CreateTableStatement::ColumnDefinition`; the flag defaults are the ones
implied by `Parser::parse_column_definition` (a fresh column is nullable and
neither primary-key nor unique). -/
structure ColumnDefinition where
  name : String
  data_type : String
  is_nullable : Bool := true
  is_primary_key : Bool := false
  is_unique : Bool := false
  default_value : Option Expr := none

/-- `SelectStatement` (field names follow the constructor arguments used in
`Parser::parse_select`). -/
structure SelectStatement where
  select_list : List (Option Expr)
  from_tables : List String
  where_clause : Option Expr
  group_by : List (Option Expr)
  having_clause : Option Expr
  order_by : List (Option Expr)
  limit : Option Expr
  offset : Option Expr

/-- `InsertStatement`. -/
structure InsertStatement where
  table_name : String
  columns : List String
  values : List (List (Option Expr))

/-- `UpdateStatement`. -/
structure UpdateStatement where
  table_name : String
  set_clause : List (String × Option Expr)
  where_clause : Option Expr

/-- `DeleteStatement`. -/
structure DeleteStatement where
  table_name : String
  where_clause : Option Expr

/-- `CreateTableStatement`. -/
structure CreateTableStatement where
  table_name : String
  columns : List ColumnDefinition

/-- `DropTableStatement`. -/
structure DropTableStatement where
  table_name : String
  deriving DecidableEq, Repr

/-- The `Statement` class hierarchy as a sum. -/
inductive Stmt where
  | select (s : SelectStatement)
  | insert (s : InsertStatement)
  | update (s : UpdateStatement)
  | delete (s : DeleteStatement)
  | createTable (s : CreateTableStatement)
  | dropTable (s : DropTableStatement)

end MainAst

namespace MainParser
/-!
Embedding of the hand-written main parser, `src/sql/parser.cpp`.

Parsing functions thread a `PState` (the parser's `tokens_`,
`current_token_`, `error_` members).  Functions containing loops or
(mutual) recursion take an explicit fuel argument and return `none` when
the budget is exhausted; all C++ `consume`/`consume_keyword` call sites
pass an explicit message, so the default-argument branch of `consume` is
never taken and is not modelled.
-/

open MainAst

/-- Parser state: `tokens_`, `current_token_`, `error_`
(`error_.empty()` ↔ `none`). -/
structure PState where
  tokens : List Token
  pos : Nat
  err : Option String
  deriving DecidableEq, Repr

/-- The token `Parser::current_token`/`peek_token` synthesize past the end:
`Token(END_OF_FILE, "", 0, 0)`. -/
def eofTok : Token := ⟨.END_OF_FILE, "", 0, 0⟩

/-- `Parser::current_token`. -/
def currentToken (st : PState) : Token := st.tokens.getD st.pos eofTok

/-- `Parser::advance` (only moves while in range). -/
def advance (st : PState) : PState :=
  if st.pos < st.tokens.length then { st with pos := st.pos + 1 } else st

/-- `Parser::match(TokenType)`. -/
def matchT (st : PState) (ty : TokenType) : Bool := (currentToken st).type = ty

/-- `Parser::match_keyword`: upper-cases the current token's text and
compares it with the keyword (it does not advance). -/
def matchKeyword (st : PState) (kw : String) : Bool :=
  upperAscii (currentToken st).value = kw

/-- `Parser::report_error`: keeps only the first error, formatted with the
current token's line and column. -/
def reportError (st : PState) (message : String) : PState :=
  match st.err with
  | some _ => st
  | none =>
    { st with
      err := some ("Parse error at line " ++ Nat.repr (currentToken st).line ++
        ", column " ++ Nat.repr (currentToken st).column ++ ": " ++ message) }

/-- `Parser::consume`: advance on a type match, otherwise record the error
(without advancing). -/
def consume (st : PState) (ty : TokenType) (msg : String) : PState :=
  if matchT st ty then advance st else reportError st msg

/-- `Parser::consume_keyword`. -/
def consumeKeyword (st : PState) (kw msg : String) : PState :=
  if matchKeyword st kw then advance st else reportError st msg

/-- `Parser::is_arithmetic_operator`. -/
def isArithmeticOperator (ty : TokenType) : Bool :=
  ty = .PLUS ∨ ty = .MINUS ∨ ty = .MULTIPLY ∨ ty = .DIVIDE ∨ ty = .MOD

/-- `Parser::is_comparison_operator`. -/
def isComparisonOperator (ty : TokenType) : Bool :=
  ty = .EQUAL ∨ ty = .NOT_EQUAL ∨ ty = .LESS ∨ ty = .LESS_EQUAL ∨
  ty = .GREATER ∨ ty = .GREATER_EQUAL

/-- `Parser::is_logical_operator`. -/
def isLogicalOperator (ty : TokenType) : Bool := ty = .AND ∨ ty = .OR

/-- `Parser::token_to_operator` (defaults to `ADD`). -/
def tokenToOperator (ty : TokenType) : BinOp :=
  match ty with
  | .PLUS => .ADD
  | .MINUS => .SUBTRACT
  | .MULTIPLY => .MULTIPLY
  | .DIVIDE => .DIVIDE
  | .MOD => .MOD
  | .EQUAL => .EQUAL
  | .NOT_EQUAL => .NOT_EQUAL
  | .LESS => .LESS
  | .LESS_EQUAL => .LESS_EQUAL
  | .GREATER => .GREATER
  | .GREATER_EQUAL => .GREATER_EQUAL
  | .AND => .AND
  | .OR => .OR
  | _ => .ADD

mutual

/-- `Parser::parse_expression`. -/
def parseExpression : Nat → PState → Option (Option Expr × PState)
  | 0, _ => none
  | fuel + 1, st => parseCondition fuel st

/-- `Parser::parse_condition` (AND/OR and comparison level,
left-associative). -/
def parseCondition : Nat → PState → Option (Option Expr × PState)
  | 0, _ => none
  | fuel + 1, st => do
    let (left, st) ← parseArithmeticExpression fuel st
    condLoop fuel left st

/-- The `while` loop of `parse_condition`. -/
def condLoop : Nat → Option Expr → PState → Option (Option Expr × PState)
  | 0, _, _ => none
  | fuel + 1, left, st =>
    if isComparisonOperator (currentToken st).type ∨
        isLogicalOperator (currentToken st).type then do
      let op := tokenToOperator (currentToken st).type
      let st := advance st
      let (right, st) ← parseArithmeticExpression fuel st
      condLoop fuel (some (.bin op left right)) st
    else some (left, st)

/-- `Parser::parse_arithmetic_expression` (+,-,*,/,% level via
`is_arithmetic_operator`, left-associative). -/
def parseArithmeticExpression : Nat → PState → Option (Option Expr × PState)
  | 0, _ => none
  | fuel + 1, st => do
    let (left, st) ← parseTerm fuel st
    arithLoop fuel left st

/-- The `while` loop of `parse_arithmetic_expression`. -/
def arithLoop : Nat → Option Expr → PState → Option (Option Expr × PState)
  | 0, _, _ => none
  | fuel + 1, left, st =>
    if isArithmeticOperator (currentToken st).type then do
      let op := tokenToOperator (currentToken st).type
      let st := advance st
      let (right, st) ← parseTerm fuel st
      arithLoop fuel (some (.bin op left right)) st
    else some (left, st)

/-- `Parser::parse_term` (*,/,% level, left-associative). -/
def parseTerm : Nat → PState → Option (Option Expr × PState)
  | 0, _ => none
  | fuel + 1, st => do
    let (left, st) ← parseFactor fuel st
    termLoop fuel left st

/-- The `while` loop of `parse_term`. -/
def termLoop : Nat → Option Expr → PState → Option (Option Expr × PState)
  | 0, _, _ => none
  | fuel + 1, left, st =>
    if (currentToken st).type = .MULTIPLY ∨ (currentToken st).type = .DIVIDE ∨
        (currentToken st).type = .MOD then do
      let op := tokenToOperator (currentToken st).type
      let st := advance st
      let (right, st) ← parseFactor fuel st
      termLoop fuel (some (.bin op left right)) st
    else some (left, st)

/-- `Parser::parse_factor`: unary minus is rewritten as `0 - expr`. -/
def parseFactor : Nat → PState → Option (Option Expr × PState)
  | 0, _ => none
  | fuel + 1, st =>
    if (currentToken st).type = .MINUS then do
      let st := advance st
      let (e, st) ← parsePrimary fuel st
      some (some (.bin .SUBTRACT (some (.lit .INTEGER "0")) e), st)
    else parsePrimary fuel st

/-- `Parser::parse_primary`: identifiers (plain or function call), literals,
parenthesized expressions; anything else records an error and yields a null
expression. -/
def parsePrimary : Nat → PState → Option (Option Expr × PState)
  | 0, _ => none
  | fuel + 1, st =>
    let token := currentToken st
    match token.type with
    | .IDENTIFIER =>
      let st := advance st
      if matchT st .LPAREN then
        let st := advance st
        if matchT st .RPAREN then
          some (some (.call token.value []), advance st)
        else do
          let (args, st) ← argsLoop fuel st []
          let st := consume st .RPAREN "Expected ) after function arguments"
          some (some (.call token.value args), st)
      else
        some (some (.ident token.value), st)
    | .NUMBER_LITERAL => some (some (.lit .INTEGER token.value), advance st)
    | .STRING_LITERAL => some (some (.lit .STRING token.value), advance st)
    | .LPAREN => do
      let st := advance st
      let (e, st) ← parseExpression fuel st
      let st := consume st .RPAREN "Expected ) after expression"
      some (e, st)
    | _ =>
      some (none, reportError st ("Unexpected token type in parse_primary: " ++ token.value))

/-- The `do … while (match(COMMA) && (advance(), true))` argument loop inside
`parse_primary`'s function-call case. -/
def argsLoop : Nat → PState → List (Option Expr) → Option (List (Option Expr) × PState)
  | 0, _, _ => none
  | fuel + 1, st, acc => do
    let (e, st) ← parseExpression fuel st
    let acc := acc ++ [e]
    if matchT st .COMMA then argsLoop fuel (advance st) acc
    else some (acc, st)

end

/-- `Parser::parse_select_list`'s comma loop. -/
def selectListLoop : Nat → PState → List (Option Expr) → Option (List (Option Expr) × PState)
  | 0, _, _ => none
  | fuel + 1, st, acc => do
    let (e, st) ← parseExpression fuel st
    let acc := acc ++ [e]
    if matchT st .COMMA then selectListLoop fuel (advance st) acc
    else some (acc, st)

/-- `Parser::parse_from_clause`'s comma loop: record the current token's text
as a table name, require it to be an identifier. -/
def fromClauseLoop : Nat → PState → List String → Option (List String × PState)
  | 0, _, _ => none
  | fuel + 1, st, acc =>
    let acc := acc ++ [(currentToken st).value]
    let st := consume st .IDENTIFIER "Expected table name"
    if matchT st .COMMA then fromClauseLoop fuel (advance st) acc
    else some (acc, st)

/-- `Parser::parse_group_by_clause`'s comma loop. -/
def groupByLoop : Nat → PState → List (Option Expr) → Option (List (Option Expr) × PState)
  | 0, _, _ => none
  | fuel + 1, st, acc => do
    let (e, st) ← parseExpression fuel st
    let acc := acc ++ [e]
    if matchT st .COMMA then groupByLoop fuel (advance st) acc
    else some (acc, st)

/-- `Parser::parse_order_by_clause`'s comma loop. -/
def orderByLoop : Nat → PState → List (Option Expr) → Option (List (Option Expr) × PState)
  | 0, _, _ => none
  | fuel + 1, st, acc => do
    let (e, st) ← parseExpression fuel st
    let acc := acc ++ [e]
    if matchT st .COMMA then orderByLoop fuel (advance st) acc
    else some (acc, st)

/-- `Parser::parse_column_list`'s comma loop. -/
def columnListLoop : Nat → PState → List String → Option (List String × PState)
  | 0, _, _ => none
  | fuel + 1, st, acc =>
    let acc := acc ++ [(currentToken st).value]
    let st := consume st .IDENTIFIER "Expected column name"
    if matchT st .COMMA then columnListLoop fuel (advance st) acc
    else some (acc, st)

/-- Inner row loop of `Parser::parse_values_list`. -/
def valuesRowLoop : Nat → PState → List (Option Expr) → Option (List (Option Expr) × PState)
  | 0, _, _ => none
  | fuel + 1, st, acc => do
    let (e, st) ← parseExpression fuel st
    let acc := acc ++ [e]
    if matchT st .COMMA then valuesRowLoop fuel (advance st) acc
    else some (acc, st)

/-- Outer loop of `Parser::parse_values_list`. -/
def valuesListLoop : Nat → PState → List (List (Option Expr)) →
    Option (List (List (Option Expr)) × PState)
  | 0, _, _ => none
  | fuel + 1, st, acc => do
    let st := consume st .LPAREN "Expected ( before values"
    let (row, st) ← valuesRowLoop fuel st []
    let st := consume st .RPAREN "Expected ) after values"
    let acc := acc ++ [row]
    if matchT st .COMMA then valuesListLoop fuel (advance st) acc
    else some (acc, st)

/-- `Parser::parse_set_clause`'s comma loop. -/
def setClauseLoop : Nat → PState → List (String × Option Expr) →
    Option (List (String × Option Expr) × PState)
  | 0, _, _ => none
  | fuel + 1, st, acc => do
    let columnName := (currentToken st).value
    let st := consume st .IDENTIFIER "Expected column name"
    let st := consume st .ASSIGN "Expected = after column name"
    let (v, st) ← parseExpression fuel st
    let acc := acc ++ [(columnName, v)]
    if matchT st .COMMA then setClauseLoop fuel (advance st) acc
    else some (acc, st)

/-- The optional-constraint `while` loop of `Parser::parse_column_definition`
(`src/sql/parser.cpp:507-527`).  Branches for `NOT`, `PRIMARY`, `UNIQUE` and
`DEFAULT` continue the loop; an unrecognized token is skipped with `advance()`
followed by `break`. -/
def constraintLoop : Nat → PState → ColumnDefinition → Option (ColumnDefinition × PState)
  | 0, _, _ => none
  | fuel + 1, st, col =>
    if ¬ (currentToken st).type = .COMMA ∧ ¬ (currentToken st).type = .RPAREN ∧
        ¬ (currentToken st).type = .END_OF_FILE then
      if matchKeyword st "NOT" then
        let st := consumeKeyword st "NULL" "Expected NULL after NOT"
        constraintLoop fuel st { col with is_nullable := false }
      else if matchKeyword st "PRIMARY" then
        let st := consumeKeyword st "KEY" "Expected KEY after PRIMARY"
        constraintLoop fuel st { col with is_primary_key := true }
      else if matchKeyword st "UNIQUE" then
        constraintLoop fuel st { col with is_unique := true }
      else if matchKeyword st "DEFAULT" then do
        let (e, st) ← parseExpression fuel st
        constraintLoop fuel st { col with default_value := e }
      else
        some (col, advance st)
    else some (col, st)

/-- `Parser::parse_column_definition`: name, data type, then the constraint
loop. -/
def parseColumnDefinition (fuel : Nat) (st : PState) :
    Option (ColumnDefinition × PState) :=
  let name := (currentToken st).value
  let st := consume st .IDENTIFIER "Expected column name"
  let data_type := (currentToken st).value
  let st := consume st .IDENTIFIER "Expected data type"
  constraintLoop fuel st { name := name, data_type := data_type }

/-- `Parser::parse_column_definitions`'s comma loop. -/
def columnDefinitionsLoop : Nat → PState → List ColumnDefinition →
    Option (List ColumnDefinition × PState)
  | 0, _, _ => none
  | fuel + 1, st, acc => do
    let (col, st) ← parseColumnDefinition fuel st
    let acc := acc ++ [col]
    if matchT st .COMMA then columnDefinitionsLoop fuel (advance st) acc
    else some (acc, st)

/-- `Parser::parse_select`.  Note that `match_keyword` does not consume, so
the clause keywords themselves are never consumed before the clause parsers
run — transcribed literally from the source. -/
def parseSelect (fuel : Nat) (st : PState) : Option (SelectStatement × PState) := do
  let st := consumeKeyword st "SELECT" "Expected SELECT"
  let (selectList, st) ← selectListLoop fuel st []
  let (fromTables, st) ←
    if matchKeyword st "FROM" then fromClauseLoop fuel st []
    else some ([], st)
  let (whereClause, st) ←
    if matchKeyword st "WHERE" then parseExpression fuel st
    else some ((none : Option Expr), st)
  let (groupBy, st) ←
    if matchKeyword st "GROUP" then
      let st := consumeKeyword st "BY" "Expected BY after GROUP"
      groupByLoop fuel st []
    else some ([], st)
  let (havingClause, st) ←
    if matchKeyword st "HAVING" then parseExpression fuel st
    else some ((none : Option Expr), st)
  let (orderBy, st) ←
    if matchKeyword st "ORDER" then
      let st := consumeKeyword st "BY" "Expected BY after ORDER"
      orderByLoop fuel st []
    else some ([], st)
  let (limit, st) ←
    if matchKeyword st "LIMIT" then parseExpression fuel st
    else some ((none : Option Expr), st)
  let (offset, st) ←
    if matchKeyword st "OFFSET" then parseExpression fuel st
    else some ((none : Option Expr), st)
  some (⟨selectList, fromTables, whereClause, groupBy, havingClause,
    orderBy, limit, offset⟩, st)

/-- `Parser::parse_insert`. -/
def parseInsert (fuel : Nat) (st : PState) : Option (InsertStatement × PState) := do
  let st := consumeKeyword st "INSERT" "Expected INSERT"
  let st := consumeKeyword st "INTO" "Expected INTO after INSERT"
  let tableName := (currentToken st).value
  let st := consume st .IDENTIFIER "Expected table name"
  let (columns, st) ←
    if matchT st .LPAREN then do
      let (cols, st) ← columnListLoop fuel st []
      let st := consume st .RPAREN "Expected ) after column list"
      some (cols, st)
    else some (([] : List String), st)
  let st := consumeKeyword st "VALUES" "Expected VALUES"
  let (values, st) ← valuesListLoop fuel st []
  some (⟨tableName, columns, values⟩, st)

/-- `Parser::parse_update`. -/
def parseUpdate (fuel : Nat) (st : PState) : Option (UpdateStatement × PState) := do
  let st := consumeKeyword st "UPDATE" "Expected UPDATE"
  let tableName := (currentToken st).value
  let st := consume st .IDENTIFIER "Expected table name"
  let st := consumeKeyword st "SET" "Expected SET"
  let (setClause, st) ← setClauseLoop fuel st []
  let (whereClause, st) ←
    if matchKeyword st "WHERE" then parseExpression fuel st
    else some ((none : Option Expr), st)
  some (⟨tableName, setClause, whereClause⟩, st)

/-- `Parser::parse_delete`. -/
def parseDelete (fuel : Nat) (st : PState) : Option (DeleteStatement × PState) := do
  let st := consumeKeyword st "DELETE" "Expected DELETE"
  let st := consumeKeyword st "FROM" "Expected FROM after DELETE"
  let tableName := (currentToken st).value
  let st := consume st .IDENTIFIER "Expected table name"
  let (whereClause, st) ←
    if matchKeyword st "WHERE" then parseExpression fuel st
    else some ((none : Option Expr), st)
  some (⟨tableName, whereClause⟩, st)

/-- `Parser::parse_create_table`. -/
def parseCreateTable (fuel : Nat) (st : PState) :
    Option (CreateTableStatement × PState) := do
  let st := consumeKeyword st "CREATE" "Expected CREATE"
  let st := consumeKeyword st "TABLE" "Expected TABLE"
  let tableName := (currentToken st).value
  let st := consume st .IDENTIFIER "Expected table name"
  let st := consume st .LPAREN "Expected ( after table name"
  let (columns, st) ← columnDefinitionsLoop fuel st []
  let st := consume st .RPAREN "Expected ) after column definitions"
  some (⟨tableName, columns⟩, st)

/-- `Parser::parse_drop_table` of `src/sql/parser.cpp` (this parser, unlike
the seal one, really builds a `DropTableStatement`). -/
def parseDropTable (st : PState) : Option (DropTableStatement × PState) := do
  let st := consumeKeyword st "DROP" "Expected DROP"
  let st := consumeKeyword st "TABLE" "Expected TABLE"
  let tableName := (currentToken st).value
  let st := consume st .IDENTIFIER "Expected table name"
  some (⟨tableName⟩, st)

/-- `Parser::parse`: dispatch on the first token's type; empty input and an
unknown leading token record an error and return a null statement. -/
def parse (fuel : Nat) (st : PState) : Option (Option Stmt × PState) :=
  if st.tokens.isEmpty then
    some (none, reportError st "Empty SQL statement")
  else
    let firstToken := st.tokens.getD 0 eofTok
    match firstToken.type with
    | .SELECT => (parseSelect fuel st).map fun r => (some (.select r.1), r.2)
    | .INSERT => (parseInsert fuel st).map fun r => (some (.insert r.1), r.2)
    | .UPDATE => (parseUpdate fuel st).map fun r => (some (.update r.1), r.2)
    | .DELETE => (parseDelete fuel st).map fun r => (some (.delete r.1), r.2)
    | .CREATE => (parseCreateTable fuel st).map fun r => (some (.createTable r.1), r.2)
    | .DROP => (parseDropTable st).map fun r => (some (.dropTable r.1), r.2)
    | _ =>
      some (none, reportError st ("Unknown statement type: " ++ firstToken.value))

/-- `Parser::Parser(sql)` followed by `parse()`: tokenize eagerly, then parse
from position 0 with no recorded error. -/
def parseSQL (fuel : Nat) (sql : String) : Option (Option Stmt × PState) := do
  let toks ← MainLexer.tokenize fuel sql
  parse fuel { tokens := toks, pos := 0, err := none }

end MainParser

namespace Planner
/-!
Embedding of `src/sql/planner/planner.cpp` (classes `PlanNode`,
`ExecutionPlan`, `Planner`).  A `PlanNode` owns a vector of
`unique_ptr<PlanNode>` children, so children are `Option PlanNode` (a
moved-from slot is `none`).  The DML leaf constructors never call
`set_cost`/`set_estimated_rows`; their cost and row count stay at the
zero-initialized defaults of the `PlanNode` base.
-/

open MainAst

/-- `JoinType` used by `JoinNode`. -/
inductive JoinType where
  | INNER | LEFT | RIGHT | FULL
  deriving DecidableEq, Repr

/-- Variant payloads of the `PlanNode` subclasses constructed in
`planner.cpp`. -/
inductive PlanKind where
  | scan (table_name : String)
  | indexScan (table_name index_name : String)
  | filter (condition : Option Expr)
  | project (expressions : List (Option Expr))
  | join (join_type : JoinType) (condition : Option Expr)
  | aggregate (group_by : List (Option Expr)) (having : Option Expr)
  | sort (order_by : List (Option Expr))
  | limit (limit offset : Option Expr)
  | insert (table_name : String) (columns : List String)
      (values : List (List (Option Expr)))
  | update (table_name : String) (set_clause : List (String × Option Expr))
      (where_condition : Option Expr)
  | delete (table_name : String) (where_condition : Option Expr)
  | createTable (table_name : String) (columns : List ColumnDefinition)
  | dropTable (table_name : String)

/-- A plan node: variant payload, `cost_`, `estimated_rows_`, `children_`. -/
inductive PlanNode where
  | mk (kind : PlanKind) (cost : ℚ) (estimated_rows : ℕ)
      (children : List (Option PlanNode))

/-- `PlanNode::get_cost`. -/
def PlanNode.cost : PlanNode → ℚ
  | .mk _ c _ _ => c

/-- `PlanNode::get_estimated_rows`. -/
def PlanNode.estimatedRows : PlanNode → ℕ
  | .mk _ _ r _ => r

/-- `ExecutionPlan` (owns `root_`). -/
structure ExecutionPlan where
  root : Option PlanNode

/-- `Planner::create_scan_node`: cost 100, 1000 rows, no child. -/
def createScanNode (table_name : String) : PlanNode :=
  .mk (.scan table_name) 100 1000 []

/-- `Planner::create_filter_node`: cost 50, 500 rows, one child. -/
def createFilterNode (child : PlanNode) (condition : Option Expr) : PlanNode :=
  .mk (.filter condition) 50 500 [some child]

/-- `Planner::create_project_node`: cost 10, 500 rows, one child. -/
def createProjectNode (child : PlanNode) (expressions : List (Option Expr)) : PlanNode :=
  .mk (.project expressions) 10 500 [some child]

/-- `Planner::create_join_node`: cost 200, 1000 rows, two children. -/
def createJoinNode (left right : PlanNode) (condition : Option Expr)
    (join_type : JoinType) : PlanNode :=
  .mk (.join join_type condition) 200 1000 [some left, some right]

/-- `Planner::create_aggregate_node`: cost 150, 100 rows, one child. -/
def createAggregateNode (child : PlanNode) (group_by : List (Option Expr))
    (having : Option Expr) : PlanNode :=
  .mk (.aggregate group_by having) 150 100 [some child]

/-- `Planner::create_sort_node`: cost 300, 500 rows, one child. -/
def createSortNode (child : PlanNode) (order_by : List (Option Expr)) : PlanNode :=
  .mk (.sort order_by) 300 500 [some child]

/-- `Planner::create_limit_node`: cost 5, 10 rows, one child. -/
def createLimitNode (child : PlanNode) (lim offset : Option Expr) : PlanNode :=
  .mk (.limit lim offset) 5 10 [some child]

/-- `Planner::plan_select`: scan of the first FROM table, then Filter iff a
WHERE clause exists, Aggregate (with HAVING) iff GROUP BY is non-empty, Sort
iff ORDER BY is non-empty, Limit (with OFFSET) iff LIMIT exists, and a final
Project; no plan when the FROM list is empty.  `Expression::clone()` is a
deep copy, i.e. the identity on values. -/
def planSelect (stmt : SelectStatement) : Option ExecutionPlan :=
  match stmt.from_tables with
  | [] => none
  | t :: _ =>
    let current := createScanNode t
    let current :=
      match stmt.where_clause with
      | some w => createFilterNode current (some w)
      | none => current
    let current :=
      if stmt.group_by.isEmpty then current
      else createAggregateNode current stmt.group_by stmt.having_clause
    let current :=
      if stmt.order_by.isEmpty then current
      else createSortNode current stmt.order_by
    let current :=
      match stmt.limit with
      | some l => createLimitNode current (some l) stmt.offset
      | none => current
    let current := createProjectNode current stmt.select_list
    some ⟨some current⟩

/-- `Planner::plan_insert` (the values payload is replaced by an empty
vector in the source). -/
def planInsert (stmt : InsertStatement) : Option ExecutionPlan :=
  some ⟨some (.mk (.insert stmt.table_name stmt.columns []) 0 0 [])⟩

/-- `Planner::plan_update` (the set clause payload is replaced by an empty
vector in the source). -/
def planUpdate (stmt : UpdateStatement) : Option ExecutionPlan :=
  some ⟨some (.mk (.update stmt.table_name [] stmt.where_clause) 0 0 [])⟩

/-- `Planner::plan_delete`. -/
def planDelete (stmt : DeleteStatement) : Option ExecutionPlan :=
  some ⟨some (.mk (.delete stmt.table_name stmt.where_clause) 0 0 [])⟩

/-- `Planner::plan_create_table` (the column payload is replaced by an empty
vector in the source). -/
def planCreateTable (stmt : CreateTableStatement) : Option ExecutionPlan :=
  some ⟨some (.mk (.createTable stmt.table_name []) 0 0 [])⟩

/-- `Planner::plan_drop_table`. -/
def planDropTable (stmt : DropTableStatement) : Option ExecutionPlan :=
  some ⟨some (.mk (.dropTable stmt.table_name) 0 0 [])⟩

/-- `Planner::plan`: dynamic-cast dispatch; a null statement yields no
plan. -/
def plan : Option Stmt → Option ExecutionPlan
  | none => none
  | some (.select s) => planSelect s
  | some (.insert s) => planInsert s
  | some (.update s) => planUpdate s
  | some (.delete s) => planDelete s
  | some (.createTable s) => planCreateTable s
  | some (.dropTable s) => planDropTable s

mutual

/-- `ExecutionPlan::get_total_cost` as a state transformer on the owned root.
The C++ body moves each child `unique_ptr` into a temporary `ExecutionPlan`
(via `const_cast`), recursively totals it, and lets the temporary destroy the
subtree, leaving the child slot null: the returned pair is (total, root after
the call). -/
def runTotalCost : Option PlanNode → ℚ × Option PlanNode
  | none => (0, none)
  | some (.mk k c r cs) =>
    (c + childrenTotal cs, some (.mk k c r (cs.map fun _ => none)))

/-- The `for (child : root_->get_children())` accumulation inside
`get_total_cost`. -/
def childrenTotal : List (Option PlanNode) → ℚ
  | [] => 0
  | ch :: rest => (runTotalCost ch).1 + childrenTotal rest

end

/-- `ExecutionPlan::get_total_rows` (does not recurse). -/
def getTotalRows : Option PlanNode → ℕ
  | none => 0
  | some n => n.estimatedRows

/-- Tags classifying plan-node variants, used to state structural properties
of the trees `plan_select` builds. -/
inductive NodeTag where
  | scan | indexScan | filter | project | join | aggregate | sort | limit
  | insert | update | delete | createTable | dropTable
  deriving DecidableEq, Repr

/-- The tag of a node's variant. -/
def tagOf : PlanKind → NodeTag
  | .scan _ => .scan
  | .indexScan _ _ => .indexScan
  | .filter _ => .filter
  | .project _ => .project
  | .join _ _ => .join
  | .aggregate _ _ => .aggregate
  | .sort _ => .sort
  | .limit _ _ => .limit
  | .insert _ _ _ => .insert
  | .update _ _ _ => .update
  | .delete _ _ => .delete
  | .createTable _ _ => .createTable
  | .dropTable _ => .dropTable

/-- The spine of a plan tree: the tags along the chain of first children. -/
def spine : PlanNode → List NodeTag
  | .mk k _ _ (some child :: _) => tagOf k :: spine child
  | .mk k _ _ _ => [tagOf k]

/-- The table scanned at the bottom of a unary chain, if the chain ends in a
`Scan` node. -/
def leafTable : PlanNode → Option String
  | .mk (.scan t) _ _ _ => some t
  | .mk _ _ _ (some child :: _) => leafTable child
  | .mk _ _ _ _ => none

end Planner

namespace Stats
/-!
Embedding of `src/sql/optimizer/statistics_manager.{h,cpp}`.  The two
`std::unordered_map` members are association lists; `double` fields are ℚ.
-/

/-- `struct ColumnStats`. -/
structure ColumnStats where
  distinct_values : ℚ
  min_value : ℚ := 0
  max_value : ℚ := 0
  null_fraction : ℚ := 0
  avg_width : ℚ := 0
  most_common_values : List ℚ := []
  most_common_freqs : List ℚ := []
  histogram_bounds : List ℚ := []
  deriving DecidableEq, Repr

/-- `struct TableStats`. -/
structure TableStats where
  row_count : ℕ
  page_count : ℕ := 0
  avg_row_size : ℚ := 0
  column_stats : List (String × ColumnStats) := []
  last_analyzed : ℚ := 0
  deriving DecidableEq, Repr

/-- `struct IndexStats`. -/
structure IndexStats where
  table_name : String
  index_name : String
  columns : List String
  height : ℕ := 0
  leaf_pages : ℕ := 0
  selectivity : ℚ := 0
  distinct_values : ℚ := 0
  deriving DecidableEq, Repr

/-- The `table_stats_` map of a `StatisticsManager`. -/
def TableMap := List (String × TableStats)

/-- `StatisticsManager::get_table_stats`. -/
def getTableStats (db : TableMap) (table_name : String) : Option TableStats :=
  db.lookup table_name

/-- `StatisticsManager::get_column_stats`: looks up the table, then the
column inside it. -/
def getColumnStats (db : TableMap) (table_name column_name : String) :
    Option ColumnStats :=
  match getTableStats db table_name with
  | none => none
  | some ts => ts.column_stats.lookup column_name

/-- `static_cast<size_t>` applied to the non-negative `double` expressions
appearing in the estimators: truncation toward zero, i.e. the floor. -/
def castToSize (q : ℚ) : ℕ := q.floor.toNat

/-- `StatisticsManager::calculate_column_selectivity`: `=` → 1/distinct,
`>`/`>=`/`<`/`<=` → 0.3, `!=` → 1 − 1/distinct, `LIKE` → 0.1, anything
else → 0.1. -/
def calculateColumnSelectivity (stats : ColumnStats) (op : String)
    (_value : String) : ℚ :=
  if op = "=" then 1 / stats.distinct_values
  else if op = ">" ∨ op = ">=" then 3 / 10
  else if op = "<" ∨ op = "<=" then 3 / 10
  else if op = "!=" then 1 - 1 / stats.distinct_values
  else if op = "LIKE" then 1 / 10
  else 1 / 10

/-- `StatisticsManager::estimate_selectivity`: a fixed default of 0.1 when no
column statistics exist. -/
def estimateSelectivity (db : TableMap) (table_name column_name op value : String) : ℚ :=
  match getColumnStats db table_name column_name with
  | none => 1 / 10
  | some stats => calculateColumnSelectivity stats op value

/-- `StatisticsManager::estimate_cardinality`. -/
def estimateCardinality (db : TableMap) (table_name column_name op value : String) : ℕ :=
  match getTableStats db table_name with
  | none => 0
  | some ts =>
    castToSize ((ts.row_count : ℚ) * estimateSelectivity db table_name column_name op value)

/-- `StatisticsManager::estimate_join_cardinality`: 0 when either table is
unknown; `min(left_rows, right_rows)` when either join column lacks
statistics; otherwise `left_rows * right_rows * min(1/left_distinct,
1/right_distinct)` cast to `size_t`. -/
def estimateJoinCardinality (db : TableMap)
    (left_table left_column right_table right_column : String) : ℕ :=
  match getTableStats db left_table, getTableStats db right_table with
  | some ls, some rs =>
    (match getColumnStats db left_table left_column,
        getColumnStats db right_table right_column with
     | some lcs, some rcs =>
       let left_selectivity := 1 / lcs.distinct_values
       let right_selectivity := 1 / rcs.distinct_values
       let join_selectivity := min left_selectivity right_selectivity
       castToSize ((ls.row_count : ℚ) * (rs.row_count : ℚ) * join_selectivity)
     | _, _ => min ls.row_count rs.row_count)
  | _, _ => 0

/-- `StatisticsManager::calculate_index_selectivity`. -/
def calculateIndexSelectivity (stats : IndexStats) (conditions : List String) : ℚ :=
  if conditions.isEmpty then 1
  else (List.range (min conditions.length stats.columns.length)).foldl
    (fun acc _ => acc * (1 / stats.distinct_values)) 1

end Stats

namespace SealLexer
/-!
Embedding of the seal front-end lexer, `src/sql/parser/seal/lexer.cpp`.
It differs from the main lexer: its keyword table also has `VIEW`, `INTO`
and `VALUES`; `=` maps to `ASSIGN`; brackets and braces are operators;
numbers have no exponent part; string values keep backslashes verbatim;
token positions are derived from the post-read column; and — crucially —
`next_token` does NOT advance when it meets an unrecognized character.
`size_t` column arithmetic (`column_ - len`) is modelled with truncated
natural subtraction; it never underflows in the runs reasoned about here.
-/

/-- The keyword table of `Lexer::init_keywords` in
`src/sql/parser/seal/lexer.cpp`. -/
def keywords : List (String × TokenType) :=
  [("SELECT", .SELECT), ("INSERT", .INSERT), ("UPDATE", .UPDATE),
   ("DELETE", .DELETE), ("CREATE", .CREATE), ("DROP", .DROP),
   ("ALTER", .ALTER), ("TABLE", .TABLE), ("INDEX", .INDEX), ("VIEW", .VIEW),
   ("FROM", .FROM), ("WHERE", .WHERE), ("GROUP", .GROUP), ("BY", .BY),
   ("ORDER", .ORDER), ("HAVING", .HAVING), ("LIMIT", .LIMIT),
   ("OFFSET", .OFFSET),
   ("JOIN", .JOIN), ("LEFT", .LEFT), ("RIGHT", .RIGHT), ("INNER", .INNER),
   ("OUTER", .OUTER), ("ON", .ON), ("AS", .AS),
   ("AND", .AND), ("OR", .OR), ("NOT", .NOT), ("IN", .IN), ("INTO", .INTO),
   ("VALUES", .VALUES), ("EXISTS", .EXISTS), ("BETWEEN", .BETWEEN),
   ("LIKE", .LIKE), ("IS", .IS), ("NULL", .NULL_VALUE),
   ("DISTINCT", .DISTINCT), ("COUNT", .COUNT), ("SUM", .SUM), ("AVG", .AVG),
   ("MAX", .MAX), ("MIN", .MIN),
   ("PRIMARY", .PRIMARY), ("KEY", .KEY), ("FOREIGN", .FOREIGN),
   ("REFERENCES", .REFERENCES), ("UNIQUE", .UNIQUE), ("CHECK", .CHECK),
   ("DEFAULT", .DEFAULT), ("CONSTRAINT", .CONSTRAINT),
   ("CASCADE", .CASCADE), ("RESTRICT", .RESTRICT), ("SET", .SET),
   ("INT", .INT), ("INTEGER", .INTEGER), ("BIGINT", .BIGINT),
   ("SMALLINT", .SMALLINT), ("TINYINT", .TINYINT),
   ("FLOAT", .FLOAT), ("DOUBLE", .DOUBLE), ("DECIMAL", .DECIMAL),
   ("NUMERIC", .NUMERIC),
   ("CHAR", .CHAR), ("VARCHAR", .VARCHAR), ("TEXT", .TEXT), ("BLOB", .BLOB),
   ("DATE", .DATE), ("TIME", .TIME), ("DATETIME", .DATETIME),
   ("TIMESTAMP", .TIMESTAMP),
   ("BOOLEAN", TokenType.BOOLEAN), ("BOOL", .BOOL)]

/-- `Lexer::is_operator_start` of the seal lexer (with brackets/braces). -/
def isOperatorStart (c : Char) : Bool :=
  c = '+' ∨ c = '-' ∨ c = '*' ∨ c = '/' ∨ c = '%' ∨
  c = '=' ∨ c = '<' ∨ c = '>' ∨ c = '!' ∨
  c = '.' ∨ c = ',' ∨ c = ';' ∨
  c = '(' ∨ c = ')' ∨ c = '[' ∨ c = ']' ∨ c = '{' ∨ c = '}'

/-- `Lexer::create_error_token` (seal): an `ERROR` token at the current
position. -/
def createErrorToken (s : LexState) (msg : String) : Token :=
  ⟨.ERROR, msg, s.line, s.column⟩

/-- `Lexer::read_keyword_or_identifier` (seal): word, keyword lookup on the
upper-cased text; the token's column is `column_ - length` computed after the
read. -/
def readKeywordOrIdentifier (s : LexState) : Token × LexState :=
  let r := takeAlnum s
  let value : String := ⟨r.1⟩
  let upper := upperAscii value
  match keywords.lookup upper with
  | some ty => (⟨ty, value, r.2.line, r.2.column - value.length⟩, r.2)
  | none => (⟨.IDENTIFIER, value, r.2.line, r.2.column - value.length⟩, r.2)

/-- `Lexer::read_number` (seal): digits, optional fraction, no exponent. -/
def readNumber (s : LexState) : Token × LexState :=
  let ri := takeDigits s
  let s1 := ri.2
  let withFrac :=
    if s1.isEof = false ∧ s1.currentChar = '.' then
      let rf := takeDigits s1.advance
      (ri.1 ++ '.' :: rf.1, rf.2)
    else (ri.1, s1)
  let value : String := ⟨withFrac.1⟩
  (⟨.NUMBER_LITERAL, value, withFrac.2.line, withFrac.2.column - value.length⟩,
   withFrac.2)

/-- Counted body loop of the seal `Lexer::read_string`: on a backslash two
characters are consumed; the value is the raw slice between the quotes,
backslashes included. -/
def readStringBodyN (quote : Char) : Nat → LexState → List Char × LexState
  | 0, s => ([], s)
  | n + 1, s =>
    if s.isEof = false ∧ ¬ s.currentChar = quote then
      if s.currentChar = '\\' then
        let s1 := s.advance
        let r := readStringBodyN quote n s1.advance
        (s.currentChar :: s1.currentChar :: r.1, r.2)
      else
        let r := readStringBodyN quote n s.advance
        (s.currentChar :: r.1, r.2)
    else ([], s)

/-- The seal string-body loop started at `s`. -/
def readStringBody (quote : Char) (s : LexState) : List Char × LexState :=
  readStringBodyN quote s.remaining s

/-- `Lexer::read_string` (seal). -/
def readString (s : LexState) : Token × LexState :=
  let quote := s.currentChar
  let s1 := s.advance
  let r := readStringBody quote s1
  if r.2.isEof then
    (createErrorToken r.2 "Unterminated string literal", r.2)
  else
    let value : String := ⟨r.1⟩
    let s2 := r.2.advance
    (⟨.STRING_LITERAL, value, s2.line, s2.column - value.length - 2⟩, s2)

/-- `Lexer::read_operator` (seal): compound assignment and comparison
two-character operators first, then single characters; `=` is `ASSIGN`. -/
def readOperator (s : LexState) : Token × LexState :=
  let c := s.currentChar
  let n := s.peekChar
  if c = '+' ∧ n = '=' then
    let s2 := s.advance.advance
    (⟨.PLUS, "+=", s2.line, s2.column - 2⟩, s2)
  else if c = '-' ∧ n = '=' then
    let s2 := s.advance.advance
    (⟨.MINUS, "-=", s2.line, s2.column - 2⟩, s2)
  else if c = '*' ∧ n = '=' then
    let s2 := s.advance.advance
    (⟨.MULTIPLY, "*=", s2.line, s2.column - 2⟩, s2)
  else if c = '/' ∧ n = '=' then
    let s2 := s.advance.advance
    (⟨.DIVIDE, "/=", s2.line, s2.column - 2⟩, s2)
  else if c = '=' ∧ n = '=' then
    let s2 := s.advance.advance
    (⟨.EQUAL, "==", s2.line, s2.column - 2⟩, s2)
  else if c = '!' ∧ n = '=' then
    let s2 := s.advance.advance
    (⟨.NOT_EQUAL, "!=", s2.line, s2.column - 2⟩, s2)
  else if c = '<' ∧ n = '=' then
    let s2 := s.advance.advance
    (⟨.LESS_EQUAL, "<=", s2.line, s2.column - 2⟩, s2)
  else if c = '>' ∧ n = '=' then
    let s2 := s.advance.advance
    (⟨.GREATER_EQUAL, ">=", s2.line, s2.column - 2⟩, s2)
  else
    let s1 := s.advance
    let tok : Token :=
      if c = '+' then ⟨.PLUS, "+", s1.line, s1.column - 1⟩
      else if c = '-' then ⟨.MINUS, "-", s1.line, s1.column - 1⟩
      else if c = '*' then ⟨.MULTIPLY, "*", s1.line, s1.column - 1⟩
      else if c = '/' then ⟨.DIVIDE, "/", s1.line, s1.column - 1⟩
      else if c = '%' then ⟨.MOD, "%", s1.line, s1.column - 1⟩
      else if c = '=' then ⟨.ASSIGN, "=", s1.line, s1.column - 1⟩
      else if c = '<' then ⟨.LESS, "<", s1.line, s1.column - 1⟩
      else if c = '>' then ⟨.GREATER, ">", s1.line, s1.column - 1⟩
      else if c = '.' then ⟨.DOT, ".", s1.line, s1.column - 1⟩
      else if c = ',' then ⟨.COMMA, ",", s1.line, s1.column - 1⟩
      else if c = ';' then ⟨.SEMICOLON, ";", s1.line, s1.column - 1⟩
      else if c = '(' then ⟨.LPAREN, "(", s1.line, s1.column - 1⟩
      else if c = ')' then ⟨.RPAREN, ")", s1.line, s1.column - 1⟩
      else if c = '[' then ⟨.LBRACKET, "[", s1.line, s1.column - 1⟩
      else if c = ']' then ⟨.RBRACKET, "]", s1.line, s1.column - 1⟩
      else if c = '{' then ⟨.LBRACE, "\x7b", s1.line, s1.column - 1⟩
      else if c = '}' then ⟨.RBRACE, "\x7d", s1.line, s1.column - 1⟩
      else createErrorToken s1 ("Unknown operator: " ++ String.singleton c)
    (tok, s1)

/-- `Lexer::next_token` of `src/sql/parser/seal/lexer.cpp`.  In the
fall-through case (unrecognized character) the error token is produced
WITHOUT advancing the cursor. -/
def nextToken (s0 : LexState) : Token × LexState :=
  let s := skipWhitespace s0
  if s.isEof then (⟨.END_OF_FILE, "", s.line, s.column⟩, s)
  else
    let c := s.currentChar
    if isAlphaChar c then readKeywordOrIdentifier s
    else if isDigitChar c then readNumber s
    else if c = '\'' ∨ c = '"' then readString s
    else if isOperatorStart c then readOperator s
    else (createErrorToken s ("Unexpected character: " ++ String.singleton c), s)

/-- The `while (!is_eof())` loop of the seal `Lexer::tokenize`, with fuel. -/
def tokenizeLoop : Nat → LexState → List Token → Option (List Token)
  | 0, _, _ => none
  | fuel + 1, s, acc =>
    if s.isEof then some acc
    else
      let r := nextToken s
      let acc' :=
        if r.1.type = .WHITESPACE ∨ r.1.type = .COMMENT then acc else acc ++ [r.1]
      if r.1.type = .END_OF_FILE then some acc'
      else tokenizeLoop fuel r.2 acc'

/-- The seal `Lexer::tokenize`. -/
def tokenize (fuel : Nat) (input : String) : Option (List Token) :=
  tokenizeLoop fuel (LexState.init input) []

end SealLexer

namespace SealAst
/-!
AST of the seal front-end, `src/sql/parser/seal/ast.h`.  There is no
`DropTableStatement` class in this AST.
-/

/-- `Literal::Type`. -/
inductive LitType where
  | STRING | INTEGER | FLOAT | BOOLEAN | NULL_VALUE
  deriving DecidableEq, Repr

/-- `BinaryExpression::Operator`. -/
inductive BinOp where
  | ADD | SUBTRACT | MULTIPLY | DIVIDE | MOD
  | EQUAL | NOT_EQUAL | LESS | LESS_EQUAL | GREATER | GREATER_EQUAL
  | AND | OR
  deriving DecidableEq, Repr

/-- The seal `Expression` hierarchy: `ColumnReference`, `Literal`,
`BinaryExpression` (constructor order: left, right, op), `FunctionCall`. -/
inductive Expr where
  | colref (tableName columnName : String)
  | lit (type : LitType) (value : String)
  | bin (left right : Option Expr) (op : BinOp)
  | funcall (functionName : String) (arguments : List (Option Expr))

/-- `SelectStatement` of the seal AST: a single `fromTable` string. -/
structure SelectStatement where
  selectList : List (Option Expr) := []
  fromTable : String := ""
  whereClause : Option Expr := none
  groupBy : List (Option Expr) := []
  havingClause : Option Expr := none
  orderBy : List (Option Expr) := []
  limitClause : Option Expr := none
  offsetClause : Option Expr := none

/-- `InsertStatement` (seal). -/
structure InsertStatement where
  tableName : String := ""
  columns : List String := []
  values : List (List (Option Expr)) := []

/-- `UpdateStatement` (seal). -/
structure UpdateStatement where
  tableName : String := ""
  setClause : List (String × Option Expr) := []
  whereClause : Option Expr := none

/-- `DeleteStatement` (seal). -/
structure DeleteStatement where
  tableName : String := ""
  whereClause : Option Expr := none

/-- `CreateTableStatement` (seal): columns are plain expressions. -/
structure CreateTableStatement where
  tableName : String := ""
  columns : List (Option Expr) := []

/-- The seal `Statement` hierarchy as a sum (no drop-table variant exists). -/
inductive Stmt where
  | select (s : SelectStatement)
  | insert (s : InsertStatement)
  | update (s : UpdateStatement)
  | delete (s : DeleteStatement)
  | createTable (s : CreateTableStatement)

end SealAst

namespace SealParsing
/-!
Embedding of the seal recursive-descent parser, class `Parser` of
`src/sql/parser/seal/parser.cpp`.  Unlike the main parser, `match` is
token-type based, `report_error` OVERWRITES the stored error (last error
wins), the failure branches for missing table names return a null
statement, and `parse_drop_table` is a stub that always returns null.
-/

open SealAst

/-- Parser state: `tokens_`, `current_token_`, `error_`. -/
structure PState where
  tokens : List Token
  pos : Nat
  err : Option String
  deriving DecidableEq, Repr

/-- `Token(END_OF_FILE, "", 0, 0)` synthesized past the end. -/
def eofTok : Token := ⟨.END_OF_FILE, "", 0, 0⟩

/-- `Parser::current_token` (seal). -/
def currentToken (st : PState) : Token := st.tokens.getD st.pos eofTok

/-- `Parser::advance` (seal). -/
def advance (st : PState) : PState :=
  if st.pos < st.tokens.length then { st with pos := st.pos + 1 } else st

/-- `Parser::match(TokenType)` (seal). -/
def matchT (st : PState) (ty : TokenType) : Bool := (currentToken st).type = ty

/-- `Parser::report_error` (seal): overwrites any previous error. -/
def reportError (st : PState) (message : String) : PState :=
  { st with err := some message }

/-- `Parser::consume` (seal): the recorded message carries the offending
token's text. -/
def consume (st : PState) (ty : TokenType) (msg : String) : PState :=
  if matchT st ty then advance st
  else reportError st (msg ++ ", got: " ++ (currentToken st).value)

/-- `Parser::token_to_operator` (seal, defaults to `ADD`). -/
def tokenToOperator (ty : TokenType) : BinOp :=
  match ty with
  | .PLUS => .ADD
  | .MINUS => .SUBTRACT
  | .MULTIPLY => .MULTIPLY
  | .DIVIDE => .DIVIDE
  | .MOD => .MOD
  | .EQUAL => .EQUAL
  | .NOT_EQUAL => .NOT_EQUAL
  | .LESS => .LESS
  | .LESS_EQUAL => .LESS_EQUAL
  | .GREATER => .GREATER
  | .GREATER_EQUAL => .GREATER_EQUAL
  | .AND => .AND
  | .OR => .OR
  | _ => .ADD

/-- `Parser::parse_column_reference` (seal). -/
def parseColumnReference (st : PState) : Option Expr × PState :=
  if matchT st .IDENTIFIER then
    (some (.colref "" (currentToken st).value), advance st)
  else
    (none, reportError st "Expected column name")

/-- `Parser::parse_literal` (seal). -/
def parseLiteral (st : PState) : Option Expr × PState :=
  if matchT st .NUMBER_LITERAL then
    (some (.lit .INTEGER (currentToken st).value), advance st)
  else if matchT st .STRING_LITERAL then
    (some (.lit .STRING (currentToken st).value), advance st)
  else
    (none, reportError st "Expected literal")

mutual

/-- `Parser::parse_expression` (seal). -/
def parseExpression : Nat → PState → Option (Option Expr × PState)
  | 0, _ => none
  | fuel + 1, st => parseCondition fuel st

/-- `Parser::parse_condition` (seal): only AND/OR in its loop. -/
def parseCondition : Nat → PState → Option (Option Expr × PState)
  | 0, _ => none
  | fuel + 1, st => do
    let (left, st) ← parseArithmeticExpression fuel st
    condLoop fuel left st

/-- The AND/OR loop of the seal `parse_condition`. -/
def condLoop : Nat → Option Expr → PState → Option (Option Expr × PState)
  | 0, _, _ => none
  | fuel + 1, left, st =>
    if matchT st .AND ∨ matchT st .OR then do
      let opType := (currentToken st).type
      let st := advance st
      let (right, st) ← parseArithmeticExpression fuel st
      condLoop fuel (some (.bin left right (tokenToOperator opType))) st
    else some (left, st)

/-- `Parser::parse_arithmetic_expression` (seal): PLUS/MINUS loop. -/
def parseArithmeticExpression : Nat → PState → Option (Option Expr × PState)
  | 0, _ => none
  | fuel + 1, st => do
    let (left, st) ← parseTerm fuel st
    arithLoop fuel left st

/-- The PLUS/MINUS loop of the seal `parse_arithmetic_expression`. -/
def arithLoop : Nat → Option Expr → PState → Option (Option Expr × PState)
  | 0, _, _ => none
  | fuel + 1, left, st =>
    if matchT st .PLUS ∨ matchT st .MINUS then do
      let opType := (currentToken st).type
      let st := advance st
      let (right, st) ← parseTerm fuel st
      arithLoop fuel (some (.bin left right (tokenToOperator opType))) st
    else some (left, st)

/-- `Parser::parse_term` (seal): MULTIPLY/DIVIDE/MOD loop. -/
def parseTerm : Nat → PState → Option (Option Expr × PState)
  | 0, _ => none
  | fuel + 1, st => do
    let (left, st) ← parseFactor fuel st
    termLoop fuel left st

/-- The MULTIPLY/DIVIDE/MOD loop of the seal `parse_term`. -/
def termLoop : Nat → Option Expr → PState → Option (Option Expr × PState)
  | 0, _, _ => none
  | fuel + 1, left, st =>
    if matchT st .MULTIPLY ∨ matchT st .DIVIDE ∨ matchT st .MOD then do
      let opType := (currentToken st).type
      let st := advance st
      let (right, st) ← parseFactor fuel st
      termLoop fuel (some (.bin left right (tokenToOperator opType))) st
    else some (left, st)

/-- `Parser::parse_factor` (seal): parenthesized expression, column
reference, or literal. -/
def parseFactor : Nat → PState → Option (Option Expr × PState)
  | 0, _ => none
  | fuel + 1, st =>
    if matchT st .LPAREN then do
      let st := advance st
      let (e, st) ← parseExpression fuel st
      let st := consume st .RPAREN "Expected )"
      some (e, st)
    else if matchT st .IDENTIFIER then
      some (parseColumnReference st)
    else if matchT st .NUMBER_LITERAL ∨ matchT st .STRING_LITERAL then
      some (parseLiteral st)
    else
      some (none,
        reportError st ("Unexpected token in expression: " ++ (currentToken st).value))

end

/-- The loop of the seal `Parser::parse_select_list`: `SELECT *` pushes a
`ColumnReference("", "*")` and breaks. -/
def selectListLoop : Nat → PState → List (Option Expr) →
    Option (List (Option Expr) × PState)
  | 0, _, _ => none
  | fuel + 1, st, acc =>
    if matchT st .MULTIPLY then
      some (acc ++ [some (.colref "" "*")], advance st)
    else do
      let (e, st) ← parseExpression fuel st
      let acc := acc ++ [e]
      if matchT st .COMMA then selectListLoop fuel (advance st) acc
      else some (acc, st)

/-- The loop of the seal `Parser::parse_group_by_clause`. -/
def groupByLoop : Nat → PState → List (Option Expr) →
    Option (List (Option Expr) × PState)
  | 0, _, _ => none
  | fuel + 1, st, acc => do
    let (e, st) ← parseExpression fuel st
    let acc := acc ++ [e]
    if matchT st .COMMA then groupByLoop fuel (advance st) acc
    else some (acc, st)

/-- The loop of the seal `Parser::parse_order_by_clause`. -/
def orderByLoop : Nat → PState → List (Option Expr) →
    Option (List (Option Expr) × PState)
  | 0, _, _ => none
  | fuel + 1, st, acc => do
    let (e, st) ← parseExpression fuel st
    let acc := acc ++ [e]
    if matchT st .COMMA then orderByLoop fuel (advance st) acc
    else some (acc, st)

/-- The loop of the seal `Parser::parse_column_list`: a non-identifier
records an error and breaks. -/
def columnListLoop : Nat → PState → List String → Option (List String × PState)
  | 0, _, _ => none
  | fuel + 1, st, acc =>
    if matchT st .IDENTIFIER then
      let acc := acc ++ [(currentToken st).value]
      let st := advance st
      if matchT st .COMMA then columnListLoop fuel (advance st) acc
      else some (acc, st)
    else some (acc, reportError st "Expected column name")

/-- Inner row loop of the seal `Parser::parse_values_list`. -/
def valuesRowLoop : Nat → PState → List (Option Expr) →
    Option (List (Option Expr) × PState)
  | 0, _, _ => none
  | fuel + 1, st, acc => do
    let (e, st) ← parseExpression fuel st
    let acc := acc ++ [e]
    if matchT st .COMMA then valuesRowLoop fuel (advance st) acc
    else some (acc, st)

/-- Outer loop of the seal `Parser::parse_values_list`. -/
def valuesListLoop : Nat → PState → List (List (Option Expr)) →
    Option (List (List (Option Expr)) × PState)
  | 0, _, _ => none
  | fuel + 1, st, acc => do
    let st := consume st .LPAREN "Expected ("
    let (row, st) ← valuesRowLoop fuel st []
    let st := consume st .RPAREN "Expected )"
    let acc := acc ++ [row]
    if matchT st .COMMA then valuesListLoop fuel (advance st) acc
    else some (acc, st)

/-- The loop of the seal `Parser::parse_set_clause`: a non-identifier records
an error and breaks. -/
def setClauseLoop : Nat → PState → List (String × Option Expr) →
    Option (List (String × Option Expr) × PState)
  | 0, _, _ => none
  | fuel + 1, st, acc =>
    if matchT st .IDENTIFIER then do
      let columnName := (currentToken st).value
      let st := advance st
      let st := consume st .ASSIGN "Expected ="
      let (v, st) ← parseExpression fuel st
      let acc := acc ++ [(columnName, v)]
      if matchT st .COMMA then setClauseLoop fuel (advance st) acc
      else some (acc, st)
    else some (acc, reportError st "Expected column name")

/-- The seal `Parser::parse_column_definition`: just a column-name
reference. -/
def parseColumnDefinition (st : PState) : Option Expr × PState :=
  if matchT st .IDENTIFIER then
    (some (.colref "" (currentToken st).value), advance st)
  else
    (none, reportError st "Expected column name")

/-- The loop of the seal `Parser::parse_column_definitions`. -/
def columnDefinitionsLoop : Nat → PState → List (Option Expr) →
    Option (List (Option Expr) × PState)
  | 0, _, _ => none
  | fuel + 1, st, acc =>
    let r := parseColumnDefinition st
    let acc := acc ++ [r.1]
    let st := r.2
    if matchT st .COMMA then columnDefinitionsLoop fuel (advance st) acc
    else some (acc, st)

/-- The seal `Parser::parse_select`: a missing table name after FROM aborts
with a null statement; other failures return the partially filled
statement. -/
def parseSelect (fuel : Nat) (st : PState) : Option (Option Stmt × PState) := do
  let st := consume st .SELECT "Expected SELECT"
  let (selectList, st) ← selectListLoop fuel st []
  let stmt : SelectStatement := { selectList := selectList }
  let step1 :
      Option (Option SelectStatement × PState) :=
    if matchT st .FROM then
      let st := advance st
      if matchT st .IDENTIFIER then
        some (some { stmt with fromTable := (currentToken st).value }, advance st)
      else
        some (none, reportError st "Expected table name")
    else some (some stmt, st)
  let (stmtOpt, st) ← step1
  match stmtOpt with
  | none => some (none, st)
  | some stmt => do
    let (stmt, st) ←
      if matchT st .WHERE then do
        let st := advance st
        let (w, st) ← parseCondition fuel st
        some ({ stmt with whereClause := w }, st)
      else some (stmt, st)
    let (stmt, st) ←
      if matchT st .GROUP then do
        let st := advance st
        let st := consume st .BY "Expected BY after GROUP"
        let (g, st) ← groupByLoop fuel st []
        some ({ stmt with groupBy := g }, st)
      else some (stmt, st)
    let (stmt, st) ←
      if matchT st .HAVING then do
        let st := advance st
        let (h, st) ← parseCondition fuel st
        some ({ stmt with havingClause := h }, st)
      else some (stmt, st)
    let (stmt, st) ←
      if matchT st .ORDER then do
        let st := advance st
        let st := consume st .BY "Expected BY after ORDER"
        let (o, st) ← orderByLoop fuel st []
        some ({ stmt with orderBy := o }, st)
      else some (stmt, st)
    let (stmt, st) ←
      if matchT st .LIMIT then do
        let st := advance st
        let (l, st) ← parseExpression fuel st
        some ({ stmt with limitClause := l }, st)
      else some (stmt, st)
    let (stmt, st) ←
      if matchT st .OFFSET then do
        let st := advance st
        let (o, st) ← parseExpression fuel st
        some ({ stmt with offsetClause := o }, st)
      else some (stmt, st)
    some (some (.select stmt), st)

/-- The seal `Parser::parse_insert`. -/
def parseInsert (fuel : Nat) (st : PState) : Option (Option Stmt × PState) := do
  let st := consume st .INSERT "Expected INSERT"
  let st := consume st .INTO "Expected INTO"
  if matchT st .IDENTIFIER then do
    let tableName := (currentToken st).value
    let st := advance st
    let (columns, st) ←
      if matchT st .LPAREN then do
        let st := advance st
        let (cols, st) ← columnListLoop fuel st []
        let st := consume st .RPAREN "Expected )"
        some (cols, st)
      else some (([] : List String), st)
    let st := consume st .VALUES "Expected VALUES"
    let (values, st) ← valuesListLoop fuel st []
    some (some (.insert ⟨tableName, columns, values⟩), st)
  else
    some (none, reportError st "Expected table name")

/-- The seal `Parser::parse_update`. -/
def parseUpdate (fuel : Nat) (st : PState) : Option (Option Stmt × PState) := do
  let st := consume st .UPDATE "Expected UPDATE"
  if matchT st .IDENTIFIER then do
    let tableName := (currentToken st).value
    let st := advance st
    let st := consume st .SET "Expected SET"
    let (setClause, st) ← setClauseLoop fuel st []
    let (whereClause, st) ←
      if matchT st .WHERE then do
        let st := advance st
        parseCondition fuel st
      else some ((none : Option Expr), st)
    some (some (.update ⟨tableName, setClause, whereClause⟩), st)
  else
    some (none, reportError st "Expected table name")

/-- The seal `Parser::parse_delete`. -/
def parseDelete (fuel : Nat) (st : PState) : Option (Option Stmt × PState) := do
  let st := consume st .DELETE "Expected DELETE"
  let st := consume st .FROM "Expected FROM"
  if matchT st .IDENTIFIER then do
    let tableName := (currentToken st).value
    let st := advance st
    let (whereClause, st) ←
      if matchT st .WHERE then do
        let st := advance st
        parseCondition fuel st
      else some ((none : Option Expr), st)
    some (some (.delete ⟨tableName, whereClause⟩), st)
  else
    some (none, reportError st "Expected table name")

/-- The seal `Parser::parse_create_table`. -/
def parseCreateTable (fuel : Nat) (st : PState) : Option (Option Stmt × PState) := do
  let st := consume st .CREATE "Expected CREATE"
  let st := consume st .TABLE "Expected TABLE"
  if matchT st .IDENTIFIER then do
    let tableName := (currentToken st).value
    let st := advance st
    let st := consume st .LPAREN "Expected ("
    let (columns, st) ← columnDefinitionsLoop fuel st []
    let st := consume st .RPAREN "Expected )"
    some (some (.createTable ⟨tableName, columns⟩), st)
  else
    some (none, reportError st "Expected table name")

/-- The seal `Parser::parse_drop_table` (`parser.cpp:218-231`): it consumes
`DROP TABLE <identifier>` and then returns a null statement — the source
comment says the implementation is simplified and "temporarily returns
nullptr".  There is no `DropTableStatement` in this AST to return. -/
def parseDropTable (st : PState) : Option Stmt × PState :=
  let st := consume st .DROP "Expected DROP"
  let st := consume st .TABLE "Expected TABLE"
  if matchT st .IDENTIFIER then
    (none, advance st)
  else
    (none, reportError st "Expected table name")

/-- The seal `Parser::parse`: dispatch on the current (first) token. -/
def parse (fuel : Nat) (st : PState) : Option (Option Stmt × PState) :=
  if st.tokens.isEmpty then
    some (none, reportError st "Empty input")
  else
    match (currentToken st).type with
    | .SELECT => parseSelect fuel st
    | .INSERT => parseInsert fuel st
    | .UPDATE => parseUpdate fuel st
    | .DELETE => parseDelete fuel st
    | .CREATE => parseCreateTable fuel st
    | .DROP => some (parseDropTable st)
    | _ =>
      some (none, reportError st ("Unexpected token: " ++ (currentToken st).value))

end SealParsing

namespace SealFrontend
/-!
Embedding of `src/sql/parser/seal/seal_parser.cpp` (class `SealParser`) and
the result types of `src/sql/parser/parser_interface.h`.
-/

/-- `struct ParseError` of `parser_interface.h`. -/
structure ParseError where
  message : String
  line : Int
  column : Int
  deriving DecidableEq, Repr

/-- `struct ParseResult` of `parser_interface.h`: the success constructor
stores the AST with an empty error list; the failure constructor stores the
errors with a null AST. -/
structure ParseResult where
  ast : Option SealAst.Stmt
  errors : List ParseError
  success : Bool

/-- `SealParser::parse`: run the seal parser; success iff a non-null
statement was produced and no error was recorded, otherwise a failed result
whose error list holds the recorded error (at position 0,0) if there is
one.  (The pure model has no exceptions, so the `catch` branch is never
taken.) -/
def parse (fuel : Nat) (sql : String) : Option ParseResult := do
  let toks ← SealLexer.tokenize fuel sql
  let (stmt, st) ← SealParsing.parse fuel { tokens := toks, pos := 0, err := none }
  if stmt.isSome ∧ st.err = none then
    some { ast := stmt, errors := [], success := true }
  else
    some { ast := none,
           errors := match st.err with
             | some m => [⟨m, 0, 0⟩]
             | none => [],
           success := false }

end SealFrontend

/-!
## Claim theorems
-/

/-- C1: the spec claims every valid statement accepted by the grammar yields
a non-null statement of the matching variant and an empty error list, in
particular a valid `DROP TABLE` a non-null `DropTableStatement` and a
successful `ParseResult`.  The code does the opposite: the seal
`Parser::parse_drop_table` is a stub that always returns a null statement
(and the seal AST has no drop-table node at all), so `SealParser::parse` on
the valid input `DROP TABLE users` returns a FAILED result with a null AST
and an empty error list. -/
theorem c1_valid_drop_table_yields_failed_parse :
    SealFrontend.parse 100 "DROP TABLE users" =
      some { ast := none, errors := [], success := false } := rfl

/-- C2 counterexample: the claim says a failed parse returns no statement
(a null result, never a partially built statement).  For
`parse("SELECT * FROM")` the main parser records an error AND returns a
non-null (partially built) `SelectStatement`. -/
theorem c2_failed_parse_returns_partial_statement :
    (MainParser.parseSQL 60 "SELECT * FROM").map
      (fun r => (r.1.isSome, r.2.err.isSome)) = some (true, true) := rfl

/-- C2 amended: on `parse("SELECT * FROM")` the parser records exactly one
error — the first one encountered, at the `*` token (line 1, column 8), with
message, line and column — but it returns a partially built
`SelectStatement` (whose select list holds a `BinaryExpression(MULTIPLY,
null, null)` and whose from-list holds the text `FROM`), not a null
statement. -/
theorem c2_first_error_kept_with_position :
    MainParser.parseSQL 60 "SELECT * FROM" =
      some (some (.select
          { select_list := [some (.bin .MULTIPLY none none)]
            from_tables := ["FROM"]
            where_clause := none
            group_by := []
            having_clause := none
            order_by := []
            limit := none
            offset := none }),
        { tokens := [⟨.SELECT, "SELECT", 1, 1⟩, ⟨.MULTIPLY, "*", 1, 8⟩,
            ⟨.FROM, "FROM", 1, 10⟩]
          pos := 2
          err := some
            "Parse error at line 1, column 8: Unexpected token type in parse_primary: *" }) :=
  rfl

/-- C3: for every SELECT statement with at least one FROM table, `plan`
returns a chain (read from the root) of exactly: a Project, then a Limit iff
LIMIT is present, a Sort iff ORDER BY is non-empty, an Aggregate iff GROUP
BY is non-empty, a Filter iff a WHERE clause is present, and finally a Scan
of the first FROM table. -/
theorem c3_plan_select_layering (s : MainAst.SelectStatement)
    (h : s.from_tables ≠ []) :
    ∃ r : Planner.PlanNode,
      Planner.plan (some (.select s)) = some ⟨some r⟩ ∧
      Planner.spine r =
        Planner.NodeTag.project ::
          ((if s.limit.isSome then [Planner.NodeTag.limit] else []) ++
           (if s.order_by.isEmpty then [] else [Planner.NodeTag.sort]) ++
           (if s.group_by.isEmpty then [] else [Planner.NodeTag.aggregate]) ++
           (if s.where_clause.isSome then [Planner.NodeTag.filter] else []) ++
           [Planner.NodeTag.scan]) ∧
      Planner.leafTable r = s.from_tables.head? := by
  obtain ⟨sl, ft, wc, gb, hc, ob, lim, off⟩ := s
  match ft with
  | [] => exact absurd rfl h
  | t :: ts =>
    cases wc <;> cases gb <;> cases ob <;> cases lim <;>
      exact ⟨_, rfl, rfl, rfl⟩

/-- Sample SELECT for the C3 witness (scenario 2 of the spec: a WHERE clause
and a single FROM table). -/
def c3sample : MainAst.SelectStatement :=
  { select_list := [some (.colref "" "*")]
    from_tables := ["users"]
    where_clause := some (.bin .GREATER (some (.ident "age"))
      (some (.lit .INTEGER "18")))
    group_by := []
    having_clause := none
    order_by := []
    limit := none
    offset := none }

/-- C3 witness: the layering theorem applied to a concrete SELECT with a
WHERE clause plans to Project(Filter(Scan(users))). -/
theorem c3_witness :
    c3sample.from_tables ≠ [] ∧
    ∃ r : Planner.PlanNode,
      Planner.plan (some (.select c3sample)) = some ⟨some r⟩ ∧
      Planner.spine r =
        [Planner.NodeTag.project, Planner.NodeTag.filter, Planner.NodeTag.scan] ∧
      Planner.leafTable r = some "users" := by
  refine ⟨by decide, ?_⟩
  obtain ⟨r, h1, h2, h3⟩ := c3_plan_select_layering c3sample (by decide)
  exact ⟨r, h1, by rw [h2]; rfl, by rw [h3]; rfl⟩

/-- The state of the seal lexer at the start of the input `"@"`. -/
def c4state : LexState := LexState.init "@"

/-- The `while` loop of the seal `tokenize` never finishes on `"@"`: the
unrecognized character produces an error token without advancing, so every
iteration re-reads the same position. -/
theorem c4_loop_never_finishes (n : Nat) :
    ∀ acc, SealLexer.tokenizeLoop n c4state acc = none := by
  induction n with
  | zero => intro acc; rfl
  | succ n ih =>
    intro acc
    have step : SealLexer.tokenizeLoop (n + 1) c4state acc =
        SealLexer.tokenizeLoop n c4state
          (acc ++ [⟨.ERROR, "Unexpected character: @", 1, 1⟩]) := rfl
    rw [step]
    exact ih _

/-- C4: the claim says `tokenize` terminates on every input, surfacing an
unrecognized character as an error token rather than looping.  In the seal
lexer `next_token` builds the error token WITHOUT advancing past the
character, so `tokenize("@")` loops forever: no iteration budget whatsoever
lets it finish. -/
theorem c4_seal_tokenize_diverges_on_at_sign (fuel : Nat) :
    SealLexer.tokenize fuel "@" = none :=
  c4_loop_never_finishes fuel []

/-- The main lexer's tokens for `"CREATE TABLE t (id myint UNIQUE)"`. -/
def c5tokens : List Token :=
  [⟨.CREATE, "CREATE", 1, 1⟩, ⟨.TABLE, "TABLE", 1, 8⟩,
   ⟨.IDENTIFIER, "t", 1, 14⟩, ⟨.LPAREN, "(", 1, 16⟩,
   ⟨.IDENTIFIER, "id", 1, 17⟩, ⟨.IDENTIFIER, "myint", 1, 20⟩,
   ⟨.UNIQUE, "UNIQUE", 1, 26⟩, ⟨.RPAREN, ")", 1, 32⟩]

/-- The parser state at the start of the constraint loop (after the column
name and data type have been consumed): the current token is `UNIQUE`. -/
def c5state : MainParser.PState := ⟨c5tokens, 6, none⟩

/-- The column the constraint loop is filling once `is_unique` has been
set. -/
def c5column : MainAst.ColumnDefinition :=
  { name := "id", data_type := "myint", is_unique := true }

/-- The constraint loop never finishes once the current token is `UNIQUE`:
the branch sets `is_unique` but consumes nothing, so the state repeats. -/
theorem c5_constraint_loop_stuck (n : Nat) :
    MainParser.constraintLoop n c5state c5column = none := by
  induction n with
  | zero => rfl
  | succ n ih =>
    have step : MainParser.constraintLoop (n + 1) c5state c5column =
        MainParser.constraintLoop n c5state c5column := rfl
    rw [step]
    exact ih

/-- Starting from the freshly constructed column the loop reaches the stuck
state after one iteration. -/
theorem c5_constraint_loop_stuck_from_start (n : Nat) :
    MainParser.constraintLoop n c5state { name := "id", data_type := "myint" } =
      none := by
  cases n with
  | zero => rfl
  | succ n =>
    have step : MainParser.constraintLoop (n + 1) c5state
          { name := "id", data_type := "myint" } =
        MainParser.constraintLoop n c5state c5column := rfl
    rw [step]
    exact c5_constraint_loop_stuck n

/-- C5: the claim says column-definition parsing terminates on every token
sequence, with the recognized constraints (NOT NULL, PRIMARY KEY, UNIQUE,
DEFAULT) consumed and recorded.  In the code `match_keyword` does not
consume, and none of the recognized-constraint branches advances past its
keyword, so any recognized constraint makes the loop repeat the same state
forever: lexing `CREATE TABLE t (id myint UNIQUE)` terminates with the
tokens below, and parsing them never finishes within any budget. -/
theorem c5_create_table_parse_diverges (fuel : Nat) :
    MainLexer.tokenize 40 "CREATE TABLE t (id myint UNIQUE)" = some c5tokens ∧
    MainParser.parse fuel { tokens := c5tokens, pos := 0, err := none } = none := by
  refine ⟨rfl, ?_⟩
  cases fuel with
  | zero => rfl
  | succ n =>
    have h := c5_constraint_loop_stuck_from_start n
    show Option.map _ (Option.bind (Option.bind
      (MainParser.constraintLoop n c5state { name := "id", data_type := "myint" })
      _) _) = none
    rw [h]
    rfl

/-- The scenario-1 SELECT (`SELECT name FROM users`) used to exhibit the
destructive total-cost computation. -/
def c6stmt : MainAst.SelectStatement :=
  { select_list := [some (.ident "name")]
    from_tables := ["users"]
    where_clause := none
    group_by := []
    having_clause := none
    order_by := []
    limit := none
    offset := none }

/-- The root `Project(Scan(users))` plan the planner builds for `c6stmt`. -/
def c6root : Option Planner.PlanNode :=
  some (.mk (.project [some (.ident "name")]) 10 500
    [some (.mk (.scan "users") 100 1000 [])])

/-- C6: the claim says `get_total_cost` returns the sum of every node's own
cost and leaves the plan tree unchanged, so two successive calls agree.  The
sum part holds on the first call (10 + 100 = 110 for Project over Scan), but
the implementation `std::move`s each child into a temporary `ExecutionPlan`
that destroys it, so the call nulls out the root's children and a second
call returns only the root's own cost (10 ≠ 110). -/
theorem c6_get_total_cost_destroys_children :
    Planner.plan (some (.select c6stmt)) = some ⟨c6root⟩ ∧
    (Planner.runTotalCost c6root).1 = 110 ∧
    (Planner.runTotalCost (Planner.runTotalCost c6root).2).1 = 10 ∧
    (Planner.runTotalCost c6root).1 ≠
      (Planner.runTotalCost (Planner.runTotalCost c6root).2).1 := by
  refine ⟨rfl, ?_, ?_, ?_⟩ <;>
    norm_num [c6root, Planner.runTotalCost, Planner.childrenTotal]

/-- The select list of a successfully parsed SELECT statement, used to state
the expression-shape properties. -/
def selectListOf (r : Option (Option MainAst.Stmt × MainParser.PState)) :
    Option (List (Option MainAst.Expr)) :=
  match r with
  | some (some (.select s), _) => some s.select_list
  | _ => none

/-- C7: `*`, `/`, `%` bind tighter than `+` and `-`, and both levels are
left-associative, in the main parser: `SELECT 1 + 2 * 3` parses to
ADD(1, MULTIPLY(2, 3)); `SELECT 1 - 2 - 3` to SUBTRACT(SUBTRACT(1, 2), 3);
`SELECT 8 / 4 / 2` to DIVIDE(DIVIDE(8, 4), 2); and `SELECT 1 + 2 % 3` to
ADD(1, MOD(2, 3)). -/
theorem c7_precedence_and_associativity :
    selectListOf (MainParser.parseSQL 60 "SELECT 1 + 2 * 3") =
      some [some (.bin .ADD (some (.lit .INTEGER "1"))
        (some (.bin .MULTIPLY (some (.lit .INTEGER "2"))
          (some (.lit .INTEGER "3")))))] ∧
    selectListOf (MainParser.parseSQL 60 "SELECT 1 - 2 - 3") =
      some [some (.bin .SUBTRACT
        (some (.bin .SUBTRACT (some (.lit .INTEGER "1"))
          (some (.lit .INTEGER "2"))))
        (some (.lit .INTEGER "3")))] ∧
    selectListOf (MainParser.parseSQL 60 "SELECT 8 / 4 / 2") =
      some [some (.bin .DIVIDE
        (some (.bin .DIVIDE (some (.lit .INTEGER "8"))
          (some (.lit .INTEGER "4"))))
        (some (.lit .INTEGER "2")))] ∧
    selectListOf (MainParser.parseSQL 60 "SELECT 1 + 2 % 3") =
      some [some (.bin .ADD (some (.lit .INTEGER "1"))
        (some (.bin .MOD (some (.lit .INTEGER "2"))
          (some (.lit .INTEGER "3")))))] :=
  ⟨rfl, rfl, rfl, rfl⟩

/-- A statistics store whose only column has `distinct_values = 1/2` (any
double can be stored; nothing validates it). -/
def c8db : Stats.TableMap :=
  [("t", { row_count := 100,
           column_stats := [("c", { distinct_values := 1 / 2 })] })]

/-- C8 counterexample: the claim asserts that for every stored `ColumnStats`
the returned selectivity lies in [0, 1]; with `distinct_values = 1/2` the
`=` selectivity is `1 / (1/2) = 2 > 1`. -/
theorem c8_selectivity_can_exceed_one :
    Stats.estimateSelectivity c8db "t" "c" "=" "v" = 2 ∧
    ¬ Stats.estimateSelectivity c8db "t" "c" "=" "v" ≤ 1 := by
  constructor <;>
    norm_num [Stats.estimateSelectivity, Stats.getColumnStats,
      Stats.getTableStats, c8db, Stats.calculateColumnSelectivity, List.lookup]

/-- C8 amended: `estimate_selectivity` returns the fixed default 0.1 when no
`ColumnStats` exist; with stored stats it returns 1/distinct for `=`, 0.3
for the four inequalities, 1 − 1/distinct for `!=`, 0.1 for `LIKE` and 0.1
otherwise; and the result lies in [0, 1] PROVIDED the stored
`distinct_values` is at least 1 (the bound fails for smaller values, see the
counterexample). -/
theorem c8_selectivity_spec (db : Stats.TableMap) (t c op v : String) :
    (Stats.getColumnStats db t c = none →
      Stats.estimateSelectivity db t c op v = 1 / 10) ∧
    (∀ stats : Stats.ColumnStats, Stats.getColumnStats db t c = some stats →
      Stats.estimateSelectivity db t c op v =
        (if op = "=" then 1 / stats.distinct_values
         else if op = ">" ∨ op = ">=" then 3 / 10
         else if op = "<" ∨ op = "<=" then 3 / 10
         else if op = "!=" then 1 - 1 / stats.distinct_values
         else if op = "LIKE" then 1 / 10
         else 1 / 10) ∧
      (1 ≤ stats.distinct_values →
        0 ≤ Stats.estimateSelectivity db t c op v ∧
        Stats.estimateSelectivity db t c op v ≤ 1)) := by
  constructor
  · intro h
    simp [Stats.estimateSelectivity, h]
  · intro stats hs
    constructor
    · simp [Stats.estimateSelectivity, hs, Stats.calculateColumnSelectivity]
    · intro hd
      have hd0 : (0 : ℚ) < stats.distinct_values := lt_of_lt_of_le one_pos hd
      have hinv : 1 / stats.distinct_values ≤ 1 := by
        rw [div_le_one hd0]; exact hd
      have hinv0 : 0 < 1 / stats.distinct_values := by positivity
      simp only [Stats.estimateSelectivity, hs, Stats.calculateColumnSelectivity]
      split_ifs <;> constructor <;> linarith

/-- A statistics store with a well-formed column (`distinct_values = 4`). -/
def c8dbW : Stats.TableMap :=
  [("t", { row_count := 100,
           column_stats := [("c", { distinct_values := 4 })] })]

/-- C8 witness: on a store with `distinct_values = 4` the `=` selectivity is
1/4 and lies in [0, 1]. -/
theorem c8_witness :
    Stats.getColumnStats c8dbW "t" "c" =
      some { distinct_values := 4 } ∧
    (1 : ℚ) ≤ (4 : ℚ) ∧
    Stats.estimateSelectivity c8dbW "t" "c" "=" "v" = 1 / 4 ∧
    0 ≤ Stats.estimateSelectivity c8dbW "t" "c" "=" "v" ∧
    Stats.estimateSelectivity c8dbW "t" "c" "=" "v" ≤ 1 := by
  have h := (c8_selectivity_spec c8dbW "t" "c" "=" "v").2
    { distinct_values := 4 } rfl
  have hb := h.2 (by norm_num)
  refine ⟨rfl, by norm_num, ?_, hb.1, hb.2⟩
  rw [h.1]
  norm_num

/-- C9: with both tables registered, `estimate_join_cardinality` returns
`left_rows * right_rows * min(1/left_distinct, 1/right_distinct)` (cast to
`size_t`, i.e. floored) when both join columns have `ColumnStats`, and falls
back to `min(left_rows, right_rows)` when either column's stats are
absent. -/
theorem c9_join_cardinality_spec (db : Stats.TableMap)
    (lt lc rt rc : String) (ls rs : Stats.TableStats)
    (hl : Stats.getTableStats db lt = some ls)
    (hr : Stats.getTableStats db rt = some rs) :
    (∀ lcs rcs : Stats.ColumnStats,
      Stats.getColumnStats db lt lc = some lcs →
      Stats.getColumnStats db rt rc = some rcs →
      Stats.estimateJoinCardinality db lt lc rt rc =
        Stats.castToSize ((ls.row_count : ℚ) * (rs.row_count : ℚ) *
          min (1 / lcs.distinct_values) (1 / rcs.distinct_values))) ∧
    ((Stats.getColumnStats db lt lc = none ∨
      Stats.getColumnStats db rt rc = none) →
      Stats.estimateJoinCardinality db lt lc rt rc =
        min ls.row_count rs.row_count) := by
  constructor
  · intro lcs rcs h1 h2
    simp [Stats.estimateJoinCardinality, hl, hr, h1, h2]
  · intro h
    rcases h with h | h <;>
      simp [Stats.estimateJoinCardinality, hl, hr, h]

/-- Join-statistics store with column stats on both join columns. -/
def c9db : Stats.TableMap :=
  [("a", { row_count := 100,
           column_stats := [("x", { distinct_values := 4 })] }),
   ("b", { row_count := 30,
           column_stats := [("y", { distinct_values := 10 })] })]

/-- Join-statistics store with table stats only (scenario 5). -/
def c9dbNoCols : Stats.TableMap :=
  [("a", { row_count := 100 }), ("b", { row_count := 30 })]

/-- C9 witness: with stats 100×30 rows and distinct counts 4 and 10 the join
cardinality is ⌊100·30·min(1/4, 1/10)⌋ = 300; without column stats it falls
back to min(100, 30) = 30. -/
theorem c9_witness :
    Stats.estimateJoinCardinality c9db "a" "x" "b" "y" = 300 ∧
    Stats.estimateJoinCardinality c9dbNoCols "a" "x" "b" "y" = 30 := by
  constructor
  · have h := (c9_join_cardinality_spec c9db "a" "x" "b" "y"
      { row_count := 100, column_stats := [("x", { distinct_values := 4 })] }
      { row_count := 30, column_stats := [("y", { distinct_values := 10 })] }
      rfl rfl).1
      { distinct_values := 4 } { distinct_values := 10 } rfl rfl
    rw [h]
    norm_num [Stats.castToSize, min_def, Rat.floor_def']
    decide
  · have h := (c9_join_cardinality_spec c9dbNoCols "a" "x" "b" "y"
      { row_count := 100 } { row_count := 30 } rfl rfl).2 (Or.inl rfl)
    rw [h]
    decide

/-- C10: the claim says `--` and `/* */` comment text is skipped entirely
and never emitted as operator or other tokens.  `skip_comment` exists but is
never called from `next_token`, so `--x` tokenizes to two MINUS operators
and an identifier, and `/*c*/` to DIVIDE, MULTIPLY, identifier, MULTIPLY,
DIVIDE.  (The other half of the claim is vacuously met: no token of kind
WHITESPACE or COMMENT is ever constructed.) -/
theorem c10_comment_text_is_tokenized :
    MainLexer.tokenize 50 "--x" =
      some [⟨.MINUS, "-", 1, 1⟩, ⟨.MINUS, "-", 1, 2⟩,
        ⟨.IDENTIFIER, "x", 1, 3⟩] ∧
    MainLexer.tokenize 50 "/*c*/" =
      some [⟨.DIVIDE, "/", 1, 1⟩, ⟨.MULTIPLY, "*", 1, 2⟩,
        ⟨.IDENTIFIER, "c", 1, 3⟩, ⟨.MULTIPLY, "*", 1, 4⟩,
        ⟨.DIVIDE, "/", 1, 5⟩] :=
  ⟨rfl, rfl⟩

end SealDB
